import Mathlib

/-!
Verification development for the Project_CVE repository.

This file shallowly embeds the Python components the claims talk about:
  * `src/project/batch.py`          (`PublicAPIBatchProcessor`)
  * `src/project/plpipeline/extract.py` (`ExtractCVE`)
  * `src/project/pdpipeline/ingest.py`  (`get_Dates`)
  * `src/project/pdpipeline/process_cve.py` (`process_cve_data`)
  * `src/project/app/main.py`       (`predict` endpoint)
  * `src/frontend/app.py`           (`validate_payload`)

Python/JSON values are modelled by the inductive `PyVal`; machine time is
modelled by rationals; fallible Python code returns `Except String`.
-/

/-- A Python/JSON value: `None`, booleans, numbers (ints and floats are
collapsed into one numeric constructor, modelled as rationals), strings,
lists and dicts (association lists in insertion order, keys unique). -/
inductive PyVal where
  | none : PyVal
  | bool : Bool → PyVal
  | num : ℚ → PyVal
  | str : String → PyVal
  | list : List PyVal → PyVal
  | obj : List (String × PyVal) → PyVal
deriving Repr

mutual

/-- Structural equality test on `PyVal` (Python `==`). -/
def PyVal.beq : PyVal → PyVal → Bool
  | .none, .none => true
  | .bool a, .bool b => a == b
  | .num a, .num b => a == b
  | .str a, .str b => a == b
  | .list a, .list b => PyVal.beqList a b
  | .obj a, .obj b => PyVal.beqObj a b
  | _, _ => false

/-- Equality test on lists of `PyVal`. -/
def PyVal.beqList : List PyVal → List PyVal → Bool
  | [], [] => true
  | x :: xs, y :: ys => PyVal.beq x y && PyVal.beqList xs ys
  | _, _ => false

/-- Equality test on association lists of `PyVal`. -/
def PyVal.beqObj : List (String × PyVal) → List (String × PyVal) → Bool
  | [], [] => true
  | (k, v) :: xs, (k2, v2) :: ys =>
      k == k2 && PyVal.beq v v2 && PyVal.beqObj xs ys
  | _, _ => false

end

mutual

theorem PyVal.eq_of_beq : {a b : PyVal} → PyVal.beq a b = true → a = b
  | .none, .none, _ => rfl
  | .bool a, .bool b, h => by
      simp only [PyVal.beq, beq_iff_eq] at h; rw [h]
  | .num a, .num b, h => by
      simp only [PyVal.beq, beq_iff_eq] at h; rw [h]
  | .str a, .str b, h => by
      simp only [PyVal.beq, beq_iff_eq] at h; rw [h]
  | .list a, .list b, h => congrArg PyVal.list (PyVal.eq_of_beqList h)
  | .obj a, .obj b, h => congrArg PyVal.obj (PyVal.eq_of_beqObj h)

theorem PyVal.eq_of_beqList : {a b : List PyVal} → PyVal.beqList a b = true → a = b
  | [], [], _ => rfl
  | x :: xs, y :: ys, h => by
      simp only [PyVal.beqList, Bool.and_eq_true] at h
      rw [PyVal.eq_of_beq h.1, PyVal.eq_of_beqList h.2]

theorem PyVal.eq_of_beqObj :
    {a b : List (String × PyVal)} → PyVal.beqObj a b = true → a = b
  | [], [], _ => rfl
  | (k, v) :: xs, (k2, v2) :: ys, h => by
      simp only [PyVal.beqObj, Bool.and_eq_true, beq_iff_eq] at h
      rw [h.1.1, PyVal.eq_of_beq h.1.2, PyVal.eq_of_beqObj h.2]

end

mutual

theorem PyVal.beq_refl : (a : PyVal) → PyVal.beq a a = true
  | .none => rfl
  | .bool a => by simp [PyVal.beq]
  | .num a => by simp [PyVal.beq]
  | .str a => by simp [PyVal.beq]
  | .list a => PyVal.beqList_refl a
  | .obj a => PyVal.beqObj_refl a

theorem PyVal.beqList_refl : (a : List PyVal) → PyVal.beqList a a = true
  | [] => rfl
  | x :: xs => by
      simp only [PyVal.beqList, Bool.and_eq_true]
      exact ⟨PyVal.beq_refl x, PyVal.beqList_refl xs⟩

theorem PyVal.beqObj_refl : (a : List (String × PyVal)) → PyVal.beqObj a a = true
  | [] => rfl
  | (k, v) :: xs => by
      simp only [PyVal.beqObj, Bool.and_eq_true, beq_self_eq_true]
      exact ⟨⟨trivial, PyVal.beq_refl v⟩, PyVal.beqObj_refl xs⟩

end

instance : DecidableEq PyVal := fun a b =>
  decidable_of_iff (PyVal.beq a b = true)
    ⟨PyVal.eq_of_beq, fun h => h ▸ PyVal.beq_refl a⟩

/-- A Python dict with string keys, in insertion order. -/
abbrev PyDict := List (String × PyVal)

/-- `d[k] = v` for a Python dict: if `k` is already a key its value is
replaced in place, otherwise the pair is appended at the end. -/
def pyInsert (d : PyDict) (k : String) (v : PyVal) : PyDict :=
  if d.any (fun p => p.1 = k) then
    d.map (fun p => if p.1 = k then (k, v) else p)
  else d ++ [(k, v)]

/-- `d.update(e)` for Python dicts: insert every pair of `e` into `d`,
in order. -/
def pyUpdate (d e : PyDict) : PyDict :=
  e.foldl (fun acc p => pyInsert acc p.1 p.2) d

namespace Batch

/-!
Embedding of `src/project/batch.py` (`PublicAPIBatchProcessor`).

HTTP traffic is modelled by an oracle: for each query-parameter dict and
attempt number, the oracle says what `session.get` does — return a
response, raise `asyncio.TimeoutError`, raise an `aiohttp.ClientError`,
or raise some other exception.
-/

/-- The `APIResponse` dataclass of `batch.py` (and, identically, of
`extract.py`). -/
structure APIResponse where
  success : Bool
  data : Option PyVal
  error : Option String := Option.none
  query_params : Option PyDict := Option.none
  status_code : Option Nat := Option.none
deriving Repr, DecidableEq

/-- What one call to `session.get(url, params=params, headers=headers)`
does: yield an HTTP response (status, parsed JSON body, raw text), or
raise one of the exception classes distinguished by `_make_request`. -/
inductive HttpOutcome where
  | response (status : Nat) (body : PyVal) (text : String)
  | timeoutError
  | clientError (msg : String)
  | otherError (msg : String)
deriving Repr

/-- A Python exception escaping the body of `_make_request`. -/
inductive PyExc where
  | timeoutErr
  | clientErr (msg : String)
  | otherErr (msg : String)
deriving Repr, DecidableEq

/-- Is the exception one of `(aiohttp.ClientError, asyncio.TimeoutError)`,
the tuple the `backoff.on_exception` decorator retries on? -/
def PyExc.retryable : PyExc → Bool
  | .timeoutErr => true
  | .clientErr _ => true
  | .otherErr _ => false

/-- The `try`/`except` body of `_make_request` (batch.py lines 86-130):
every exception raised by the HTTP call is caught and converted into a
failure `APIResponse`; a 2xx response becomes a success `APIResponse`; any
other status becomes a failure `APIResponse` with an `HTTP Error` message.
All branches set `query_params` to the request's params.  The function is
total: no exception ever escapes the body. -/
def tryBody (params : PyDict) (o : HttpOutcome) : APIResponse :=
  match o with
  | .response status body text =>
      if 200 ≤ status ∧ status < 300 then
        { success := true, data := some body, query_params := some params,
          status_code := some status }
      else
        { success := false, data := Option.none,
          error := some ("HTTP Error " ++ toString status ++ ": " ++ text),
          query_params := some params, status_code := some status }
  | .timeoutError =>
      { success := false, data := Option.none, error := some "Request timed out",
        query_params := some params }
  | .clientError m =>
      { success := false, data := Option.none,
        error := some ("Client error: " ++ m), query_params := some params }
  | .otherError m =>
      { success := false, data := Option.none,
        error := some ("Unexpected error: " ++ m), query_params := some params }

/-- Semantics of `@backoff.on_exception(backoff.expo, (aiohttp.ClientError,
asyncio.TimeoutError), max_tries=3, ...)`: call the wrapped function; if it
raises one of the two retryable exception classes and tries remain, sleep
and call it again; a non-retryable exception, or exhaustion of `max_tries`,
re-raises.  `f k` is the wrapped body on attempt number `k` (0-based);
the result pairs the final outcome with the number of calls made. -/
def backoffRun (f : Nat → Except PyExc APIResponse) :
    Nat → Nat → Except PyExc APIResponse × Nat
  | 0, k => (f k, k + 1)
  | triesLeft + 1, k =>
      match f k with
      | .ok r => (.ok r, k + 1)
      | .error e =>
          if e.retryable ∧ triesLeft ≠ 0 then backoffRun f triesLeft (k + 1)
          else (.error e, k + 1)

/-- The body of `_make_request` on attempt `k`, with the internal
`try`/`except` applied: `tryBody` catches every exception, so the wrapped
function always returns normally (`Except.ok`). -/
def make_request_body (oracle : PyDict → Nat → HttpOutcome) (params : PyDict)
    (k : Nat) : Except PyExc APIResponse :=
  Except.ok (tryBody params (oracle params k))

/-- `PublicAPIBatchProcessor._make_request`: the decorated function — the
`backoff` decorator (max_tries = 3) around the try/except body.  Returns
the final outcome together with the number of attempts actually made. -/
def make_request (oracle : PyDict → Nat → HttpOutcome) (params : PyDict) :
    Except PyExc APIResponse × Nat :=
  backoffRun (make_request_body oracle params) 3 0

/-- The decorator never retries: since the body catches every exception,
the first call returns normally and `backoffRun` stops after one attempt,
whatever the HTTP outcome. -/
theorem make_request_one_attempt (oracle : PyDict → Nat → HttpOutcome)
    (params : PyDict) :
    make_request oracle params =
      (Except.ok (tryBody params (oracle params 0)), 1) := rfl

end Batch

namespace Batch

/-!
### Rate limiter under `asyncio.gather`

`_make_request` begins with (batch.py lines 86-93):

    current_time = time.time()
    time_since_last_request = current_time - self.last_request_time
    if time_since_last_request < self.request_interval:
        await asyncio.sleep(self.request_interval - time_since_last_request)
    self.last_request_time = time.time()

`fetch_data` creates one `_make_request` coroutine per parameter tuple and
runs them with `asyncio.gather`.  Under asyncio's deterministic cooperative
scheduling, `gather` starts the coroutines in list order; each coroutine
runs instantaneously (pure computation takes no model time) until its first
`await` — either the `asyncio.sleep` above, or (when it does not sleep) the
`session.get` of the HTTP request, executed right after it assigns
`last_request_time`.  Either await yields control to the next coroutine at
the *same* clock value.  A sleeping coroutine wakes at its precomputed wake
time, assigns `last_request_time := clock` and issues its request at that
clock; nothing it reads after waking depends on the other tasks.

`gatherStarts interval n clock last` therefore returns, in task order, the
model start times of the `n` gathered requests, given the clock value when
`gather` begins and the current `last_request_time`. -/
def gatherStarts (interval : ℚ) : Nat → ℚ → ℚ → List ℚ
  | 0, _, _ => []
  | n + 1, clock, last =>
      if clock - last < interval then
        -- sleeps; wakes and starts at `last + interval`; it has not yet
        -- updated `last_request_time`, so the next task still reads `last`
        (clock + (interval - (clock - last))) :: gatherStarts interval n clock last
      else
        -- no sleep: sets `last_request_time := clock` and starts at once
        clock :: gatherStarts interval n clock clock

/-- C2 (amended): the sleep-based rate limiter only guarantees spacing
against the `last_request_time` recorded when the batch began: every
request of a gathered batch starts at least `request_interval` after that
value.  Pairwise spacing between the batch's own requests — what the claim
asserts — fails, because concurrently gathered coroutines read
`last_request_time` before any of them updates it
(`C2_counterexample_simultaneous_starts`). -/
theorem C2_rate_limit_start_lower_bound (interval : ℚ) :
    ∀ (n : Nat) (clock last : ℚ), last ≤ clock →
      ∀ s ∈ gatherStarts interval n clock last, last + interval ≤ s := by
  intro n
  induction n with
  | zero => intro clock last _ s hs; simp [gatherStarts] at hs
  | succ m ih =>
      intro clock last hcl s hs
      rw [gatherStarts] at hs
      by_cases hlt : clock - last < interval
      · rw [if_pos hlt] at hs
        rcases List.mem_cons.mp hs with h | h
        · subst h; linarith
        · exact ih clock last hcl s h
      · rw [if_neg hlt] at hs
        push_neg at hlt
        rcases List.mem_cons.mp hs with h | h
        · subst h; linarith
        · have := ih clock clock le_rfl s h
          linarith

end Batch

namespace Batch

/-- The dict comprehension of `fetch_data` (batch.py line 161):
`{param_names[i]: values[i] for i in range(len(values))}`.  When the tuple
is longer than `param_names`, `param_names[i]` raises `IndexError`. -/
def dictComp (param_names : List String) (values : List PyVal) :
    Except PyExc PyDict :=
  if values.length ≤ param_names.length then
    .ok ((param_names.zip values).foldl (fun acc kv => pyInsert acc kv.1 kv.2) [])
  else .error (.otherErr "IndexError: list index out of range")

/-- Parameter-dict construction of `fetch_data` (batch.py lines 159-165):
the comprehension dict, then `params.update(additional_params)` when
`additional_params` is truthy. -/
def buildParams (param_names : List String) (additional_params : Option PyDict)
    (values : List PyVal) : Except PyExc PyDict := do
  let params ← dictComp param_names values
  match additional_params with
  | some a => .ok (pyUpdate params a)
  | Option.none => .ok params

/-- The query-parameter dict the claim describes: `param_names` bound
pointwise to the tuple's values, merged with `additional_params`
(Python `dict.update` semantics). -/
def mergedParams (param_names : List String) (additional_params : Option PyDict)
    (values : List PyVal) : PyDict :=
  pyUpdate ((param_names.zip values).foldl (fun acc kv => pyInsert acc kv.1 kv.2) [])
    (additional_params.getD [])

/-- `PublicAPIBatchProcessor.fetch_data` (batch.py lines 132-172): build one
parameter dict per tuple (in list order), create one `_make_request` task
per dict, and run them with `asyncio.gather`, which returns the task
results in task-creation order. -/
def fetch_data (oracle : PyDict → Nat → HttpOutcome)
    (param_values : List (List PyVal)) (param_names : List String)
    (additional_params : Option PyDict) : Except PyExc (List APIResponse) := do
  let ps ← param_values.mapM (buildParams param_names additional_params)
  ps.mapM (fun p => (make_request oracle p).1)

theorem tryBody_query_params (p : PyDict) (o : HttpOutcome) :
    (tryBody p o).query_params = some p := by
  cases o with
  | response s b t => rw [tryBody]; split <;> rfl
  | timeoutError => rfl
  | clientError m => rfl
  | otherError m => rfl

theorem mapM_ok_of_forall {α β ε : Type} (f : α → Except ε β) (g : α → β) :
    ∀ l : List α, (∀ a ∈ l, f a = .ok (g a)) → l.mapM f = .ok (l.map g) := by
  intro l
  induction l with
  | nil => intro _; rfl
  | cons x xs ih =>
      intro h
      rw [List.mapM_cons, h x (List.mem_cons_self x xs),
        ih (fun a ha => h a (List.mem_cons_of_mem x ha))]
      rfl

theorem buildParams_ok (param_names : List String)
    (additional_params : Option PyDict) (values : List PyVal)
    (h : values.length = param_names.length) :
    buildParams param_names additional_params values =
      .ok (mergedParams param_names additional_params values) := by
  rw [buildParams, dictComp, if_pos (le_of_eq h)]
  cases additional_params with
  | none => rfl
  | some a => rfl

end Batch

namespace Batch

/-- C1: the claim says a client error or timeout is retried with backoff up
to the retry budget before a failure `APIResponse` is produced.  The code
cannot do that: the `try`/`except` inside `_make_request` catches
`asyncio.TimeoutError` and `aiohttp.ClientError` itself and converts them
to failure responses, so no exception ever reaches the
`backoff.on_exception` decorator.  Evaluated at the failing input — an
HTTP call that times out on every attempt — `_make_request` returns the
failure `APIResponse` after exactly 1 attempt, with the 3-try budget
unused (and `ExtractCVE._make_request` has no decorator at all). -/
theorem C1_timeout_fails_without_retry :
    make_request (fun _ _ => HttpOutcome.timeoutError) [] =
      (Except.ok
        { success := false,
          data := Option.none,
          error := some "Request timed out",
          query_params := some ([] : PyDict),
          status_code := Option.none },
       1) ∧ (1 : Nat) < 3 :=
  ⟨rfl, by decide⟩

/-- C2 (counterexample): with `rate_limit_per_minute = 60`, i.e.
`request_interval = 60/60 = 1`, two requests gathered in one batch both
read the stale `last_request_time = 0`, both sleep until model time `1`,
and both start at time `1`: their start times are `0 < request_interval`
apart, so the claimed pairwise spacing (and hence the per-minute cap)
fails. -/
theorem C2_counterexample_simultaneous_starts :
    gatherStarts (60 / 60) 2 0 0 = [1, 1] ∧ ¬ ((1 : ℚ) + 60 / 60 ≤ 1) := by
  constructor
  · norm_num [gatherStarts]
  · norm_num

/-- C3: `fetch_data` reassembles results against their originating query
parameters: whenever every tuple has as many values as there are
`param_names` (otherwise the dict comprehension raises `IndexError`),
`fetch_data` returns exactly one `APIResponse` per tuple, in input order,
and the `i`-th response's `query_params` is `param_names` bound pointwise
to the `i`-th tuple's values, merged (`dict.update`) with
`additional_params` — for successful and failed responses alike, since the
HTTP oracle is arbitrary. -/
theorem C3_fetch_data_reassembles (oracle : PyDict → Nat → HttpOutcome)
    (param_values : List (List PyVal)) (param_names : List String)
    (additional_params : Option PyDict)
    (h : ∀ v ∈ param_values, v.length = param_names.length) :
    ∃ rs, fetch_data oracle param_values param_names additional_params =
        .ok rs ∧
      rs.length = param_values.length ∧
      ∀ i (hi : i < param_values.length) (hr : i < rs.length),
        (rs.get ⟨i, hr⟩).query_params =
          some (mergedParams param_names additional_params
            (param_values.get ⟨i, hi⟩)) := by
  have h1 : param_values.mapM (buildParams param_names additional_params) =
      .ok (param_values.map (mergedParams param_names additional_params)) :=
    mapM_ok_of_forall _ _ _ (fun a ha => buildParams_ok _ _ a (h a ha))
  have h2 : (param_values.map (mergedParams param_names additional_params)).mapM
      (fun p => (make_request oracle p).1) =
      .ok ((param_values.map (mergedParams param_names additional_params)).map
        (fun p => tryBody p (oracle p 0))) :=
    mapM_ok_of_forall _ _ _ (fun p _ => by rw [make_request_one_attempt])
  refine ⟨(param_values.map (mergedParams param_names additional_params)).map
    (fun p => tryBody p (oracle p 0)), ?_, ?_, ?_⟩
  · unfold fetch_data
    rw [h1]
    exact h2
  · simp
  · intro i hi hr
    simp [List.get_eq_getElem, List.getElem_map, tryBody_query_params]

end Batch

namespace Batch

theorem C2_amended_witness :
    ((0 : ℚ) ≤ 0) ∧ ((0 : ℚ) + 60 / 60 ≤ 1) :=
  ⟨le_rfl, C2_rate_limit_start_lower_bound (60 / 60) 2 0 0 le_rfl 1
    (by norm_num [gatherStarts])⟩

theorem C3_witness :
    (∀ v ∈ [[PyVal.str "a"], [PyVal.str "b"]],
      List.length v = List.length ["cveId"]) ∧
    (∃ rs, fetch_data (fun _ _ => HttpOutcome.response 200 (PyVal.num 3) "")
        [[PyVal.str "a"], [PyVal.str "b"]] ["cveId"]
        (some [("resultsPerPage", PyVal.num 5)]) = .ok rs ∧
      rs.length = [[PyVal.str "a"], [PyVal.str "b"]].length ∧
      ∀ i (hi : i < [[PyVal.str "a"], [PyVal.str "b"]].length) (hr : i < rs.length),
        (rs.get ⟨i, hr⟩).query_params =
          some (mergedParams ["cveId"] (some [("resultsPerPage", PyVal.num 5)])
            ([[PyVal.str "a"], [PyVal.str "b"]].get ⟨i, hi⟩))) :=
  ⟨by decide, C3_fetch_data_reassembles _ _ _ _ (by decide)⟩

end Batch

namespace Batch

/-- A pandas DataFrame, as `process_dataframe` uses it: named columns and a
list of rows (each row one `PyVal` per column). -/
structure DataFrame where
  cols : List String
  rows : List (List PyVal)

/-- `df[column_names]` restricted to one row: the row's values at the named
columns, in `column_names` order. -/
def projectRow (cols column_names : List String) (row : List PyVal) : List PyVal :=
  column_names.map (fun c => row.getD (cols.indexOf c) PyVal.none)

/-- `df[column_names].values.tolist()` before deduplication: one projected
tuple per input row, in row order. -/
def selectColumns (df : DataFrame) (column_names : List String) :
    List (List PyVal) :=
  df.rows.map (projectRow df.cols column_names)

/-- Worker for `dropDuplicates`: keep each tuple not seen before, tracking
the set of tuples already emitted. -/
def dropDupsGo : List (List PyVal) → List (List PyVal) → List (List PyVal)
  | _, [] => []
  | seen, r :: rs =>
      if r ∈ seen then dropDupsGo seen rs
      else r :: dropDupsGo (r :: seen) rs

/-- `pandas.DataFrame.drop_duplicates()` on the projected tuples: keep the
first occurrence of each tuple, in first-occurrence order. -/
def dropDuplicates (l : List (List PyVal)) : List (List PyVal) :=
  dropDupsGo [] l

/-- The batching loop `for i in range(0, total_items, optimal_batch_size)`
with slices `param_values[i : i + optimal_batch_size]`: the list cut into
consecutive chunks of size `n` (the last one possibly shorter).  Assumes
`n ≠ 0` at call sites (`range` with step 0 raises in Python). -/
def chunks {α : Type} (n : Nat) : List α → List (List α)
  | [] => []
  | x :: xs =>
      if n = 0 then [] else
        (x :: xs).take n :: chunks n ((x :: xs).drop n)
termination_by l => l.length
decreasing_by
  simp only [List.length_drop, List.length_cons]
  omega

/-- `PublicAPIBatchProcessor.process_dataframe` (batch.py lines 207-277):
validate that the query columns exist, project and deduplicate them,
compute `optimal_batch_size = min(batch_size, max_concurrent_requests*2)`,
then fetch each batch with `_process_batch` (a fresh client session around
`fetch_data`) and concatenate the batches' responses in order.  The
returned responses are `all_results`; the final DataFrame is
`result_handler(all_results)` (or `_default_result_handler`), a pure
function of this list. -/
def process_dataframe (oracle : PyDict → Nat → HttpOutcome) (df : DataFrame)
    (column_names param_names : List String) (batch_size : Nat)
    (additional_params : Option PyDict) (max_concurrent_requests : Nat) :
    Except PyExc (List APIResponse) :=
  if column_names.all (fun c => df.cols.contains c) then
    let param_values := dropDuplicates (selectColumns df column_names)
    let optimal_batch_size := min batch_size (max_concurrent_requests * 2)
    if optimal_batch_size = 0 then
      .error (.otherErr "ValueError: range() arg 3 must not be zero")
    else do
      let batchResults ← (chunks optimal_batch_size param_values).mapM
        (fun b => fetch_data oracle b param_names additional_params)
      .ok batchResults.flatten
  else .error (.otherErr "ValueError: Column not found in DataFrame")

theorem chunks_flatten {α : Type} (n : Nat) (hn : n ≠ 0) :
    ∀ l : List α, (chunks n l).flatten = l := by
  have H : ∀ (m : Nat) (l : List α), l.length ≤ m → (chunks n l).flatten = l := by
    intro m
    induction m with
    | zero =>
        intro l hl
        rw [List.length_eq_zero.mp (Nat.le_zero.mp hl)]
        simp [chunks]
    | succ k ih =>
        intro l hl
        cases l with
        | nil => simp [chunks]
        | cons x xs =>
            rw [chunks, if_neg hn, List.flatten_cons,
              ih ((x :: xs).drop n)
                (by simp only [List.length_drop, List.length_cons]; simp at hl; omega)]
            exact List.take_append_drop n (x :: xs)
  exact fun l => H l.length l le_rfl

/-- The response produced for one (deduplicated) parameter tuple: the
outcome of `_make_request` on its merged query-parameter dict. -/
def responseFor (oracle : PyDict → Nat → HttpOutcome) (param_names : List String)
    (additional_params : Option PyDict) (values : List PyVal) : APIResponse :=
  tryBody (mergedParams param_names additional_params values)
    (oracle (mergedParams param_names additional_params values) 0)

theorem fetch_data_ok (oracle : PyDict → Nat → HttpOutcome)
    (b : List (List PyVal)) (param_names : List String)
    (additional_params : Option PyDict)
    (h : ∀ v ∈ b, v.length = param_names.length) :
    fetch_data oracle b param_names additional_params =
      .ok (b.map (responseFor oracle param_names additional_params)) := by
  have h1 : b.mapM (buildParams param_names additional_params) =
      .ok (b.map (mergedParams param_names additional_params)) :=
    mapM_ok_of_forall _ _ _ (fun a ha => buildParams_ok _ _ a (h a ha))
  have h2 : (b.map (mergedParams param_names additional_params)).mapM
      (fun p => (make_request oracle p).1) =
      .ok ((b.map (mergedParams param_names additional_params)).map
        (fun p => tryBody p (oracle p 0))) :=
    mapM_ok_of_forall _ _ _ (fun p _ => by rw [make_request_one_attempt])
  unfold fetch_data
  rw [h1]
  show (b.map (mergedParams param_names additional_params)).mapM
      (fun p => (make_request oracle p).1) = _
  rw [h2, List.map_map]
  rfl

theorem dropDupsGo_subset :
    ∀ (l seen : List (List PyVal)), dropDupsGo seen l ⊆ l := by
  intro l
  induction l with
  | nil => intro seen; rw [dropDupsGo]; exact fun x hx => hx
  | cons r rs ih =>
      intro seen
      rw [dropDupsGo]
      by_cases hr : r ∈ seen
      · rw [if_pos hr]
        exact List.subset_cons_of_subset r (ih seen)
      · rw [if_neg hr]
        exact List.cons_subset_cons r (ih (r :: seen))

theorem dropDuplicates_subset (l : List (List PyVal)) : dropDuplicates l ⊆ l :=
  dropDupsGo_subset l []

theorem dropDupsGo_append_mem :
    ∀ (l seen : List (List PyVal)) (x : List PyVal), x ∈ l ∨ x ∈ seen →
      dropDupsGo seen (l ++ [x]) = dropDupsGo seen l := by
  intro l
  induction l with
  | nil =>
      intro seen x hx
      rcases hx with h | h
      · exact absurd h (List.not_mem_nil x)
      · simp only [List.nil_append, dropDupsGo, if_pos h]
  | cons r rs ih =>
      intro seen x hx
      rw [List.cons_append, dropDupsGo, dropDupsGo]
      by_cases hr : r ∈ seen
      · rw [if_pos hr, if_pos hr]
        apply ih
        rcases hx with h | h
        · rcases List.mem_cons.mp h with h2 | h2
          · exact Or.inr (h2 ▸ hr)
          · exact Or.inl h2
        · exact Or.inr h
      · rw [if_neg hr, if_neg hr]
        rw [ih (r :: seen) x ?goalmem]
        rcases hx with h | h
        · rcases List.mem_cons.mp h with h2 | h2
          · exact Or.inr (h2 ▸ List.mem_cons_self r seen)
          · exact Or.inl h2
        · exact Or.inr (List.mem_cons_of_mem r h)

theorem dropDuplicates_append_mem (l : List (List PyVal)) (x : List PyVal)
    (hx : x ∈ l) : dropDuplicates (l ++ [x]) = dropDuplicates l :=
  dropDupsGo_append_mem l [] x (Or.inl hx)

theorem process_dataframe_ok (oracle : PyDict → Nat → HttpOutcome)
    (df : DataFrame) (column_names param_names : List String)
    (batch_size : Nat) (additional_params : Option PyDict)
    (max_concurrent_requests : Nat)
    (hc : column_names.all (fun c => df.cols.contains c) = true)
    (hb : min batch_size (max_concurrent_requests * 2) ≠ 0)
    (hlen : column_names.length = param_names.length) :
    process_dataframe oracle df column_names param_names batch_size
        additional_params max_concurrent_requests =
      .ok ((dropDuplicates (selectColumns df column_names)).map
        (responseFor oracle param_names additional_params)) := by
  have hv : ∀ v ∈ dropDuplicates (selectColumns df column_names),
      v.length = param_names.length := by
    intro v hvmem
    have := dropDuplicates_subset _ hvmem
    rcases List.mem_map.mp this with ⟨row, _, hrow⟩
    rw [← hrow, projectRow, List.length_map]
    exact hlen
  have hm : (chunks (min batch_size (max_concurrent_requests * 2))
      (dropDuplicates (selectColumns df column_names))).mapM
        (fun b => fetch_data oracle b param_names additional_params) =
      .ok ((chunks (min batch_size (max_concurrent_requests * 2))
        (dropDuplicates (selectColumns df column_names))).map
          (fun b => b.map (responseFor oracle param_names additional_params))) := by
    apply mapM_ok_of_forall
    intro b hbmem
    apply fetch_data_ok
    intro v hvb
    apply hv
    rw [← chunks_flatten (min batch_size (max_concurrent_requests * 2)) hb
      (dropDuplicates (selectColumns df column_names))]
    exact List.mem_flatten.mpr ⟨b, hbmem, hvb⟩
  unfold process_dataframe
  simp only [hc, if_true, if_neg hb]
  rw [hm]
  show Except.ok (List.flatten _) = _
  rw [← List.map_flatten, chunks_flatten _ hb]

/-- C10: `process_dataframe` deduplicates before querying.  Whenever the
queried columns exist in both DataFrames, `optimal_batch_size` is nonzero,
and `column_names` matches `param_names` in length (so parameter dicts
build without `IndexError`), then: (1) two DataFrames whose projections
onto `column_names` have the same distinct rows in the same
first-occurrence order produce the same response list — hence the same
request sequence (each response's `query_params` is its request) and the
same result DataFrame (`result_handler(all_results)` is a function of the
response list); (2) the number of responses (one result row each) equals
the number of distinct projected tuples; (3) appending a row whose
projection already occurs changes nothing. -/
theorem C10_process_dataframe_dedup (oracle : PyDict → Nat → HttpOutcome)
    (df1 df2 : DataFrame) (column_names param_names : List String)
    (batch_size : Nat) (additional_params : Option PyDict)
    (max_concurrent_requests : Nat) (r : List PyVal)
    (hc1 : column_names.all (fun c => df1.cols.contains c) = true)
    (hc2 : column_names.all (fun c => df2.cols.contains c) = true)
    (hlen : column_names.length = param_names.length)
    (hb : min batch_size (max_concurrent_requests * 2) ≠ 0)
    (hdedup : dropDuplicates (selectColumns df1 column_names) =
      dropDuplicates (selectColumns df2 column_names))
    (hr : projectRow df1.cols column_names r ∈ selectColumns df1 column_names) :
    process_dataframe oracle df1 column_names param_names batch_size
        additional_params max_concurrent_requests =
      process_dataframe oracle df2 column_names param_names batch_size
        additional_params max_concurrent_requests ∧
    (∃ rs, process_dataframe oracle df1 column_names param_names batch_size
        additional_params max_concurrent_requests = .ok rs ∧
      rs.length = (dropDuplicates (selectColumns df1 column_names)).length) ∧
    process_dataframe oracle ⟨df1.cols, df1.rows ++ [r]⟩ column_names
        param_names batch_size additional_params max_concurrent_requests =
      process_dataframe oracle df1 column_names param_names batch_size
        additional_params max_concurrent_requests := by
  have h1 := process_dataframe_ok oracle df1 column_names param_names
    batch_size additional_params max_concurrent_requests hc1 hb hlen
  have h2 := process_dataframe_ok oracle df2 column_names param_names
    batch_size additional_params max_concurrent_requests hc2 hb hlen
  have hsel : selectColumns ⟨df1.cols, df1.rows ++ [r]⟩ column_names =
      selectColumns df1 column_names ++ [projectRow df1.cols column_names r] := by
    simp [selectColumns]
  have h3 := process_dataframe_ok oracle ⟨df1.cols, df1.rows ++ [r]⟩
    column_names param_names batch_size additional_params
    max_concurrent_requests hc1 hb hlen
  refine ⟨?_, ⟨_, h1, by simp⟩, ?_⟩
  · rw [h1, h2, hdedup]
  · rw [h3, h1, hsel, dropDuplicates_append_mem _ _ hr]

/-- Closed instance of `C10_process_dataframe_dedup`: `df1` has a
duplicated row that `df2` lacks; all hypotheses are discharged by
evaluation. -/
theorem C10_witness :
    ((["a", "b"].all (fun c => ["a", "b"].contains c) = true) ∧
     (["a", "b"].all (fun c => ["a", "b"].contains c) = true) ∧
     (["a", "b"] : List String).length = (["pa", "pb"] : List String).length ∧
     min 100 (10 * 2) ≠ 0 ∧
     dropDuplicates (selectColumns
        ⟨["a", "b"], [[PyVal.num 1, PyVal.num 2], [PyVal.num 1, PyVal.num 2],
          [PyVal.num 3, PyVal.num 4]]⟩ ["a", "b"]) =
       dropDuplicates (selectColumns
        ⟨["a", "b"], [[PyVal.num 1, PyVal.num 2], [PyVal.num 3, PyVal.num 4]]⟩
          ["a", "b"]) ∧
     projectRow ["a", "b"] ["a", "b"] [PyVal.num 1, PyVal.num 2] ∈
       selectColumns
        ⟨["a", "b"], [[PyVal.num 1, PyVal.num 2], [PyVal.num 1, PyVal.num 2],
          [PyVal.num 3, PyVal.num 4]]⟩ ["a", "b"]) ∧
    (process_dataframe (fun _ _ => HttpOutcome.timeoutError)
        ⟨["a", "b"], [[PyVal.num 1, PyVal.num 2], [PyVal.num 1, PyVal.num 2],
          [PyVal.num 3, PyVal.num 4]]⟩ ["a", "b"] ["pa", "pb"] 100
          Option.none 10 =
      process_dataframe (fun _ _ => HttpOutcome.timeoutError)
        ⟨["a", "b"], [[PyVal.num 1, PyVal.num 2], [PyVal.num 3, PyVal.num 4]]⟩
          ["a", "b"] ["pa", "pb"] 100 Option.none 10 ∧
     (∃ rs, process_dataframe (fun _ _ => HttpOutcome.timeoutError)
        ⟨["a", "b"], [[PyVal.num 1, PyVal.num 2], [PyVal.num 1, PyVal.num 2],
          [PyVal.num 3, PyVal.num 4]]⟩ ["a", "b"] ["pa", "pb"] 100
          Option.none 10 = .ok rs ∧
       rs.length = (dropDuplicates (selectColumns
        ⟨["a", "b"], [[PyVal.num 1, PyVal.num 2], [PyVal.num 1, PyVal.num 2],
          [PyVal.num 3, PyVal.num 4]]⟩ ["a", "b"])).length) ∧
     process_dataframe (fun _ _ => HttpOutcome.timeoutError)
        ⟨["a", "b"], [[PyVal.num 1, PyVal.num 2], [PyVal.num 1, PyVal.num 2],
          [PyVal.num 3, PyVal.num 4]] ++ [[PyVal.num 1, PyVal.num 2]]⟩
          ["a", "b"] ["pa", "pb"] 100 Option.none 10 =
      process_dataframe (fun _ _ => HttpOutcome.timeoutError)
        ⟨["a", "b"], [[PyVal.num 1, PyVal.num 2], [PyVal.num 1, PyVal.num 2],
          [PyVal.num 3, PyVal.num 4]]⟩ ["a", "b"] ["pa", "pb"] 100
          Option.none 10) :=
  ⟨⟨by decide, by decide, by decide, by decide, by decide, by decide⟩,
   C10_process_dataframe_dedup _ _ _ _ _ _ _ _ _
     (by decide) (by decide) (by decide) (by decide) (by decide) (by decide)⟩

end Batch

namespace Ingest

/-!
Embedding of `get_Dates` (`src/project/pdpipeline/ingest.py`, lines 31-46)
and the line-identical `ExtractCVE._get_Params`
(`src/project/plpipeline/extract.py`, lines 51-65).  The source is a triple
nested loop — `for year in range(start_year, end_year + 1)`, `for month in
range(1, 13)`, `for i in range(0, 6000, 2000)` — appending one params dict
per iteration; it is rendered here as nested blocks flattened in the same
order.  `datetime.date` only accepts years 1..9999; the claims are settled
within that range, where `calendar.monthrange(year, month)[1]` is the
`monthrangeDays` below.
-/

/-- `calendar.isleap`: divisible by 4 and (not by 100, or by 400). -/
def isLeap (year : Nat) : Bool :=
  year % 4 = 0 ∧ (year % 100 ≠ 0 ∨ year % 400 = 0)

/-- `calendar.monthrange(year, month)[1]`: the number of days in the
month. -/
def monthrangeDays (year month : Nat) : Nat :=
  if month = 2 then (if isLeap year then 29 else 28)
  else if month = 4 ∨ month = 6 ∨ month = 9 ∨ month = 11 then 30
  else 31

/-- `date(year, month, 1).strftime("%m")`: the month, zero-padded to two
digits. -/
def fmt2 (month : Nat) : String :=
  if month < 10 then "0" ++ toString month else toString month

/-- One params dict of the generator. -/
structure DateParams where
  pubStartDate : String
  pubEndDate : String
  startIndex : Nat
deriving Repr, DecidableEq

/-- The dict built in the loop body:
`{"pubStartDate": f"{year}-{MM}-01T00:00:00.000",
  "pubEndDate": f"{year}-{MM}-{last_date}T23:59:59.999",
  "startIndex": i}`. -/
def dateDict (year month i : Nat) : DateParams :=
  { pubStartDate := toString year ++ "-" ++ fmt2 month ++ "-01T00:00:00.000",
    pubEndDate := toString year ++ "-" ++ fmt2 month ++ "-" ++
      toString (monthrangeDays year month) ++ "T23:59:59.999",
    startIndex := i }

/-- The inner loop `for i in range(0, 6000, 2000)`: three dicts for one
month. -/
def monthBlock (year month : Nat) : List DateParams :=
  ([0, 2000, 4000] : List Nat).map (dateDict year month)

/-- The middle loop `for month in range(1, 13)`: 36 dicts for one year. -/
def yearBlock (year : Nat) : List DateParams :=
  ((List.range' 1 12).map (monthBlock year)).flatten

/-- `get_Dates(start_year, end_year)` (ingest.py lines 31-46): the outer
loop `for year in range(start_year, end_year + 1)`. -/
def get_Dates (start_year end_year : Nat) : List DateParams :=
  ((List.range' start_year (end_year + 1 - start_year)).map yearBlock).flatten

/-- `ExtractCVE._get_Params(start_year, end_year)` (extract.py lines
51-65): the same three nested loops, line for line. -/
def ExtractCVE_get_Params (start_year end_year : Nat) : List DateParams :=
  ((List.range' start_year (end_year + 1 - start_year)).map yearBlock).flatten

theorem yearBlock_length (year : Nat) : (yearBlock year).length = 36 := rfl

theorem yearBlock_get (year j : Nat) (hj : j < 36) :
    (yearBlock year).get ⟨j, by rw [yearBlock_length]; exact hj⟩ =
      dateDict year (j / 3 + 1) (2000 * (j % 3)) := by
  interval_cases j <;> rfl

end Ingest

namespace Ingest

theorem datesAux (n : Nat) : ∀ (sy : Nat),
    (((List.range' sy n).map yearBlock).flatten.length = 36 * n) ∧
    (∀ k (hk : k < ((List.range' sy n).map yearBlock).flatten.length),
      ((List.range' sy n).map yearBlock).flatten.get ⟨k, hk⟩ =
        dateDict (sy + k / 36) ((k % 36) / 3 + 1) (2000 * (k % 3))) := by
  induction n with
  | zero =>
      intro sy
      exact ⟨rfl, fun k hk => absurd hk (by simp [List.range'])⟩
  | succ m ih =>
      intro sy
      have ihl := (ih (sy + 1)).1
      have ihg := (ih (sy + 1)).2
      have hlen : ((List.range' sy (m + 1)).map yearBlock).flatten.length =
          36 * (m + 1) := by
        show (yearBlock sy ++
          ((List.range' (sy + 1) m).map yearBlock).flatten).length = 36 * (m + 1)
        rw [List.length_append, ihl, yearBlock_length]
        omega
      refine ⟨hlen, ?_⟩
      intro k hk
      show (yearBlock sy ++
        ((List.range' (sy + 1) m).map yearBlock).flatten).get ⟨k, hk⟩ = _
      rw [List.get_eq_getElem]
      by_cases hk36 : k < 36
      · have hkL : k < (yearBlock sy).length := by rw [yearBlock_length]; exact hk36
        rw [List.getElem_append_left hkL, ← List.get_eq_getElem (yearBlock sy) ⟨k, hkL⟩]
        have e0 : (yearBlock sy).get ⟨k, hkL⟩ =
            (yearBlock sy).get ⟨k, by rw [yearBlock_length]; exact hk36⟩ := rfl
        rw [e0, yearBlock_get sy k hk36]
        have e1 : sy + k / 36 = sy := by omega
        have e2 : (k % 36) / 3 + 1 = k / 3 + 1 := by omega
        rw [e1, e2]
      · have hge : (yearBlock sy).length ≤ k := by rw [yearBlock_length]; omega
        have hrest : k - (yearBlock sy).length <
            ((List.range' (sy + 1) m).map yearBlock).flatten.length := by
          have := hk
          rw [hlen] at this
          rw [ihl, yearBlock_length]
          omega
        rw [List.getElem_append_right hge,
          ← List.get_eq_getElem _ ⟨k - (yearBlock sy).length, hrest⟩,
          ihg (k - (yearBlock sy).length) hrest]
        have e1 : sy + 1 + (k - (yearBlock sy).length) / 36 = sy + k / 36 := by
          rw [yearBlock_length]; omega
        have e2 : ((k - (yearBlock sy).length) % 36) / 3 + 1 = (k % 36) / 3 + 1 := by
          rw [yearBlock_length]; omega
        have e3 : 2000 * ((k - (yearBlock sy).length) % 3) = 2000 * (k % 3) := by
          rw [yearBlock_length]; omega
        rw [e1, e2, e3]

/-- C8: for `start_year ≤ end_year` (within `datetime.date`'s supported
year range 1..9999, outside which Python's `date()` itself raises), the
parameter generator — `get_Dates` in ingest.py and the line-identical
`ExtractCVE._get_Params` in extract.py — returns `36 * (#years)` dicts:
entry `k` belongs to year `start_year + k/36` and month `(k%36)/3 + 1`
(so each year contributes 36 dicts, 3 per month, months 1..12 in
chronological order of year then month) with `startIndex 2000 * (k%3)`
(i.e. 0, 2000, 4000), `pubStartDate` the first day of the month at
`T00:00:00.000`, and `pubEndDate` the `monthrange` last day of the same
month at `T23:59:59.999`. -/
theorem C8_date_schedule (start_year end_year : Nat)
    (hy : start_year ≤ end_year) (hy1 : 1 ≤ start_year) (hy2 : end_year ≤ 9999) :
    ExtractCVE_get_Params start_year end_year = get_Dates start_year end_year ∧
    (get_Dates start_year end_year).length = 36 * (end_year + 1 - start_year) ∧
    ∀ k (hk : k < (get_Dates start_year end_year).length),
      (get_Dates start_year end_year).get ⟨k, hk⟩ =
        dateDict (start_year + k / 36) ((k % 36) / 3 + 1) (2000 * (k % 3)) :=
  ⟨rfl, (datesAux (end_year + 1 - start_year) start_year).1,
    (datesAux (end_year + 1 - start_year) start_year).2⟩

/-- Closed instance of `C8_date_schedule` at `start_year = end_year =
2024`: 36 dicts, and (for example) entry 4 — February, startIndex 2000 —
has the leap-year end date `2024-02-29T23:59:59.999`. -/
theorem C8_witness :
    ((2024 ≤ 2024 ∧ 1 ≤ 2024 ∧ 2024 ≤ 9999) ∧
      ExtractCVE_get_Params 2024 2024 = get_Dates 2024 2024 ∧
      (get_Dates 2024 2024).length = 36 * (2024 + 1 - 2024) ∧
      ∀ k (hk : k < (get_Dates 2024 2024).length),
        (get_Dates 2024 2024).get ⟨k, hk⟩ =
          dateDict (2024 + k / 36) ((k % 36) / 3 + 1) (2000 * (k % 3))) ∧
    (get_Dates 2024 2024).get ⟨4, by decide⟩ =
      { pubStartDate := "2024-02-01T00:00:00.000",
        pubEndDate := "2024-02-29T23:59:59.999", startIndex := 2000 } :=
  ⟨⟨⟨by decide, by decide, by decide⟩,
    C8_date_schedule 2024 2024 (by decide) (by decide) (by decide)⟩, by decide⟩

end Ingest

namespace InferenceAPI

/-!
Embedding of the `predict` handler (`src/project/app/main.py`, lines
16-58).  Floats are modelled as rationals.  The pickled scikit-learn model
is abstract: `predict` maps the 2-D feature array to a list of class
labels, `predict_proba` to one probability row per input row (its entry at
index `c` being the probability of class `c`).  The pickle file on disk is
`absent`, `unreadable`, or `present`; `numpy.array` on ragged nested lists
raises `ValueError`.  The payload type `VectorInput` (from the `schemas`
module, not part of the sources) carries `features` as a list of float
vectors, per its use here and in the frontend.
-/

/-- The unpickled scikit-learn classifier, as used by the handler. -/
structure SKModel where
  predict : List (List ℚ) → List Nat
  predict_proba : List (List ℚ) → List (List ℚ)

/-- State of `./models/logistic_regression_model.pkl`. -/
inductive ModelFile where
  | absent
  | unreadable (msg : String)
  | present (m : SKModel)

/-- The `PredictionOutput` schema: `predicted_class` and `probability`. -/
structure PredictionOutput where
  predicted_class : Nat
  probability : ℚ
deriving Repr, DecidableEq

/-- The loop `for i, pred_class in enumerate(predictions)` with
`prob = pred_probs_all[i][pred_class]`, accumulating `results_list`;
an out-of-range index raises `IndexError`.  `i` is the running
enumeration index. -/
def buildResults (pred_probs_all : List (List ℚ)) :
    Nat → List Nat → Except String (List PredictionOutput)
  | _, [] => .ok []
  | i, pc :: rest =>
      match pred_probs_all.get? i with
      | some row =>
          match row.get? pc with
          | some p =>
              match buildResults pred_probs_all (i + 1) rest with
              | .ok rs => .ok ({ predicted_class := pc, probability := p } :: rs)
              | .error e => .error e
          | Option.none => .error "IndexError: index out of range"
      | Option.none => .error "IndexError: list index out of range"

/-- `POST /predict` (main.py lines 16-58): build the numpy array, check the
model file exists, unpickle it, predict, and assemble one
`PredictionOutput` per prediction; any exception is caught, logged, and
re-raised as `HTTPException(status_code=400, detail=f"Error processing
array: {str(e)}")` — modelled as `Except.error (status, detail)`. -/
def predictHandler (mf : ModelFile) (features : List (List ℚ)) :
    Except (Nat × String) (List PredictionOutput) :=
  if features.all (fun r => r.length = (features.headD []).length) then
    match mf with
    | .absent =>
        .error (400, "Error processing array: Model not found at ./models/logistic_regression_model.pkl")
    | .unreadable msg => .error (400, "Error processing array: " ++ msg)
    | .present m =>
        match buildResults (m.predict_proba features) 0 (m.predict features) with
        | .ok rs => .ok rs
        | .error e => .error (400, "Error processing array: " ++ e)
  else
    .error (400, "Error processing array: setting an array element with a sequence")

theorem buildResults_ok (pred_probs_all : List (List ℚ)) :
    ∀ (preds : List Nat) (i : Nat),
      (∀ j pc, preds.get? j = some pc →
        ∃ row, pred_probs_all.get? (i + j) = some row ∧ ∃ p, row.get? pc = some p) →
      ∃ rs, buildResults pred_probs_all i preds = .ok rs ∧
        rs.length = preds.length ∧
        ∀ j pc, preds.get? j = some pc →
          ∃ row p, pred_probs_all.get? (i + j) = some row ∧ row.get? pc = some p ∧
            rs.get? j = some { predicted_class := pc, probability := p } := by
  intro preds
  induction preds with
  | nil =>
      intro i _
      exact ⟨[], rfl, rfl, fun j pc hj => by simp at hj⟩
  | cons pc rest ih =>
      intro i hbound
      obtain ⟨row, hrow, p, hp⟩ := hbound 0 pc rfl
      rw [Nat.add_zero] at hrow
      have hshift : ∀ j pc2, rest.get? j = some pc2 →
          ∃ row2, pred_probs_all.get? (i + 1 + j) = some row2 ∧
            ∃ p2, row2.get? pc2 = some p2 := by
        intro j pc2 hj
        obtain ⟨row2, hrow2, hp2⟩ := hbound (j + 1) pc2 (by simpa using hj)
        exact ⟨row2, by rw [← hrow2]; congr 1; omega, hp2⟩
      obtain ⟨rs, hrs, hlen, hidx⟩ := ih (i + 1) hshift
      refine ⟨{ predicted_class := pc, probability := p } :: rs, ?_, by simp [hlen], ?_⟩
      · simp only [buildResults, hrow, hp, hrs]
      · intro j pc2 hj
        cases j with
        | zero =>
            simp only [List.get?] at hj
            obtain rfl : pc = pc2 := by injection hj
            exact ⟨row, p, by rw [Nat.add_zero]; exact hrow, hp, rfl⟩
        | succ j2 =>
            obtain ⟨row2, p2, hrow2, hp2, hrs2⟩ := hidx j2 pc2 (by simpa using hj)
            refine ⟨row2, p2, ?_, hp2, by simpa using hrs2⟩
            rw [← hrow2]
            congr 1
            omega

end InferenceAPI

namespace InferenceAPI

/-- C5: for every batch the handler accepts (rectangular array, model
present, scikit-learn returning one class per row with its probability row
covering the predicted class — the last two facts are the stated
hypotheses), POST `/predict` returns exactly one result per input feature
vector, in input order: whenever the model's `j`-th prediction is `pc`,
the `j`-th response entry is `predicted_class = pc` with `probability =
predict_proba[j][pc]`. -/
theorem C5_predict_per_row (m : SKModel) (features : List (List ℚ))
    (hrect : features.all (fun r => r.length = (features.headD []).length) = true)
    (hlen : (m.predict features).length = features.length)
    (hb : ∀ j pc, (m.predict features).get? j = some pc →
      ∃ row, (m.predict_proba features).get? j = some row ∧
        ∃ p, row.get? pc = some p) :
    ∃ rs, predictHandler (.present m) features = .ok rs ∧
      rs.length = features.length ∧
      ∀ j pc, (m.predict features).get? j = some pc →
        ∃ row p, (m.predict_proba features).get? j = some row ∧
          row.get? pc = some p ∧
          rs.get? j = some { predicted_class := pc, probability := p } := by
  have hb0 : ∀ j pc, (m.predict features).get? j = some pc →
      ∃ row, (m.predict_proba features).get? (0 + j) = some row ∧
        ∃ p, row.get? pc = some p := by
    intro j pc hj
    simpa using hb j pc hj
  obtain ⟨rs, hrs, hlen2, hidx⟩ :=
    buildResults_ok (m.predict_proba features) (m.predict features) 0 hb0
  refine ⟨rs, ?_, by rw [hlen2, hlen], ?_⟩
  · simp only [predictHandler, hrect, if_true, hrs]
  · intro j pc hj
    obtain ⟨row, p, h1, h2, h3⟩ := hidx j pc hj
    exact ⟨row, p, by simpa using h1, h2, h3⟩

/-- C7: the only failure recovery of `/predict` is catch-and-log: every
error outcome of the handler carries HTTP status 400 and a detail string
`"Error processing array: " ++ msg`, with no prediction results; in
particular an absent pickled model file always produces that 400 (with the
`FileNotFoundError` message) once the input array builds. -/
theorem C7_errors_are_400 :
    (∀ (mf : ModelFile) (features : List (List ℚ)) (e : Nat × String),
      predictHandler mf features = .error e →
        e.1 = 400 ∧ ∃ s, e.2 = "Error processing array: " ++ s) ∧
    (∀ features : List (List ℚ),
      features.all (fun r => r.length = (features.headD []).length) = true →
      predictHandler .absent features =
        .error (400,
          "Error processing array: Model not found at ./models/logistic_regression_model.pkl")) := by
  constructor
  · intro mf features e he
    cases hrect : features.all (fun r => r.length = (features.headD []).length) with
    | false =>
        have hred : predictHandler mf features =
            .error (400,
              "Error processing array: setting an array element with a sequence") := by
          unfold predictHandler
          rw [hrect, if_neg Bool.false_ne_true]
        rw [hred] at he
        injection he with h
        subst h
        exact ⟨rfl, "setting an array element with a sequence", rfl⟩
    | true =>
        cases mf with
        | absent =>
            have hred : predictHandler ModelFile.absent features =
                .error (400,
                  "Error processing array: Model not found at ./models/logistic_regression_model.pkl") := by
              unfold predictHandler
              rw [hrect, if_pos rfl]
            rw [hred] at he
            injection he with h
            subst h
            exact ⟨rfl, "Model not found at ./models/logistic_regression_model.pkl", rfl⟩
        | unreadable msg =>
            have hred : predictHandler (ModelFile.unreadable msg) features =
                .error (400, "Error processing array: " ++ msg) := by
              unfold predictHandler
              rw [hrect, if_pos rfl]
            rw [hred] at he
            injection he with h
            subst h
            exact ⟨rfl, msg, rfl⟩
        | present m =>
            cases hbr : buildResults (m.predict_proba features) 0 (m.predict features) with
            | ok rs =>
                have hred : predictHandler (ModelFile.present m) features = .ok rs := by
                  unfold predictHandler
                  rw [hrect, if_pos rfl]
                  show (match buildResults (m.predict_proba features) 0
                    (m.predict features) with
                    | Except.ok rs => Except.ok rs
                    | Except.error e =>
                        Except.error (400, "Error processing array: " ++ e)) = _
                  rw [hbr]
                rw [hred] at he
                simp at he
            | error er =>
                have hred : predictHandler (ModelFile.present m) features =
                    .error (400, "Error processing array: " ++ er) := by
                  unfold predictHandler
                  rw [hrect, if_pos rfl]
                  show (match buildResults (m.predict_proba features) 0
                    (m.predict features) with
                    | Except.ok rs => Except.ok rs
                    | Except.error e =>
                        Except.error (400, "Error processing array: " ++ e)) = _
                  rw [hbr]
                rw [hred] at he
                injection he with h
                subst h
                exact ⟨rfl, er, rfl⟩
  · intro features hrect
    unfold predictHandler
    rw [hrect, if_pos rfl]

theorem C7_witness :
    (predictHandler ModelFile.absent [] =
      .error (400,
        "Error processing array: Model not found at ./models/logistic_regression_model.pkl")) ∧
    ((400, "Error processing array: Model not found at ./models/logistic_regression_model.pkl") :
        Nat × String).1 = 400 ∧
    ∃ s, ((400,
        "Error processing array: Model not found at ./models/logistic_regression_model.pkl") :
        Nat × String).2 = "Error processing array: " ++ s := by
  have h : predictHandler ModelFile.absent [] =
      .error (400,
        "Error processing array: Model not found at ./models/logistic_regression_model.pkl") := rfl
  exact ⟨h, (C7_errors_are_400.1 ModelFile.absent [] _ h).1,
    (C7_errors_are_400.1 ModelFile.absent [] _ h).2⟩

end InferenceAPI

namespace InferenceAPI

theorem C5_witness :
    ((([[(0 : ℚ)]] : List (List ℚ)).all
        (fun r => r.length = (([[(0 : ℚ)]] : List (List ℚ)).headD []).length)) = true ∧
     ((SKModel.mk (fun _ => [0]) (fun _ => [[1]])).predict [[(0 : ℚ)]]).length =
       ([[(0 : ℚ)]] : List (List ℚ)).length ∧
     (∀ j pc,
       ((SKModel.mk (fun _ => [0]) (fun _ => [[1]])).predict [[(0 : ℚ)]]).get? j =
         some pc →
       ∃ row, ((SKModel.mk (fun _ => [0]) (fun _ => [[1]])).predict_proba
         [[(0 : ℚ)]]).get? j = some row ∧ ∃ p, row.get? pc = some p)) ∧
    (∃ rs, predictHandler (.present (SKModel.mk (fun _ => [0]) (fun _ => [[1]])))
        [[(0 : ℚ)]] = .ok rs ∧
      rs.length = ([[(0 : ℚ)]] : List (List ℚ)).length ∧
      ∀ j pc,
        ((SKModel.mk (fun _ => [0]) (fun _ => [[1]])).predict [[(0 : ℚ)]]).get? j =
          some pc →
        ∃ row p, ((SKModel.mk (fun _ => [0]) (fun _ => [[1]])).predict_proba
            [[(0 : ℚ)]]).get? j = some row ∧
          row.get? pc = some p ∧
          rs.get? j = some { predicted_class := pc, probability := p }) := by
  have hb : ∀ j pc,
      ((SKModel.mk (fun _ => [0]) (fun _ => [[1]])).predict [[(0 : ℚ)]]).get? j =
        some pc →
      ∃ row, ((SKModel.mk (fun _ => [0]) (fun _ => [[1]])).predict_proba
        [[(0 : ℚ)]]).get? j = some row ∧ ∃ p, row.get? pc = some p := by
    intro j pc hj
    cases j with
    | zero =>
        obtain rfl : (0 : Nat) = pc := by injection hj
        exact ⟨[1], rfl, 1, rfl⟩
    | succ n => simp at hj
  exact ⟨⟨by decide, by decide, hb⟩,
    C5_predict_per_row (SKModel.mk (fun _ => [0]) (fun _ => [[1]])) [[(0 : ℚ)]]
      (by decide) (by decide) hb⟩

end InferenceAPI

namespace Frontend

/-!
Embedding of `validate_payload` (`src/frontend/app.py`, lines 27-51), which
runs on the result of `json.loads`.  `float(x)` in Python succeeds on
numbers, on booleans (`float(True) = 1.0`) and on numeric strings, and
raises on `None`, lists and dicts; numeric strings are modelled as an
optionally signed decimal literal with optional surrounding spaces
(Python's further forms — exponents, `inf`, `nan`, underscores — are out
of the modelled scope and play no part in the claims settled here).
-/

/-- `EXPECTED_VECTOR_LENGTH` (app.py line 12). -/
def EXPECTED_VECTOR_LENGTH : Nat := 91

/-- Value of an unsigned digit string. -/
def digitsVal (l : List Char) : Nat :=
  l.foldl (fun acc c => 10 * acc + (c.toNat - 48)) 0

/-- Parse an unsigned decimal literal: digits with an optional single
point, at least one digit overall. -/
def parseUnsigned (l : List Char) : Option ℚ :=
  let ip := l.takeWhile Char.isDigit
  let rest := l.drop ip.length
  match rest with
  | [] => if ip.isEmpty then Option.none else some (digitsVal ip : ℚ)
  | c :: frac =>
      if c = '.' ∧ frac.all Char.isDigit ∧ ¬ (ip.isEmpty ∧ frac.isEmpty) then
        some ((digitsVal ip : ℚ) + (digitsVal frac : ℚ) / ((10 : ℚ) ^ frac.length))
      else Option.none

/-- Python `float` applied to a string: strip spaces, optional sign, then
an unsigned decimal literal. -/
def strToFloat (s : String) : Option ℚ :=
  let l := s.data.dropWhile (fun c => c = ' ')
  let l := (l.reverse.dropWhile (fun c => c = ' ')).reverse
  match l with
  | '+' :: rest => parseUnsigned rest
  | '-' :: rest => (parseUnsigned rest).map (fun q => -q)
  | _ => parseUnsigned l

/-- Python `float(x)` on a JSON value: numbers are themselves, booleans
become 1/0, numeric strings parse; `None`, lists and dicts raise
`TypeError`. -/
def coerceFloat : PyVal → Option ℚ
  | .num q => some q
  | .bool b => some (if b then 1 else 0)
  | .str s => strToFloat s
  | _ => Option.none

/-- The per-vector checks of `validate_payload` (app.py lines 38-49):
the element must be a list, of length `EXPECTED_VECTOR_LENGTH`, and
`[float(x) for x in vector]` must succeed. -/
def cleanVector (v : PyVal) : Except String (List ℚ) :=
  match v with
  | .list l =>
      if l.length = EXPECTED_VECTOR_LENGTH then
        match l.mapM coerceFloat with
        | some out => .ok out
        | Option.none => .error "Vector contains non-numeric values."
      else .error "Vector has the wrong length."
  | _ => .error "Vector is not a list."

/-- `validate_payload` (app.py lines 27-51) after `json.loads`: the value
must be a dict; its `features` entry (default `None`) must be a list and
truthy (non-empty); every vector must pass `cleanVector`; the cleaned
vectors are returned. -/
def validate_payload (data : PyVal) : Except String (List (List ℚ)) :=
  match data with
  | .obj kvs =>
      match (kvs.lookup "features").getD PyVal.none with
      | .list fs =>
          if fs.isEmpty then
            .error "The features field must be a non-empty list of vectors."
          else fs.mapM cleanVector
      | _ => .error "The features field must be a non-empty list of vectors."
  | _ => .error "Payload must be a JSON object with a features key."

/-- The cleaned payload the spec describes: every vector's values coerced
to float. -/
def coercedVectors (fs : List PyVal) : List (List ℚ) :=
  fs.map (fun v =>
    match v with
    | PyVal.list l => l.map (fun x => (coerceFloat x).getD 0)
    | _ => [])

end Frontend

namespace Frontend

theorem mapM_option_isSome_iff {α β : Type} (f : α → Option β) :
    ∀ l : List α, (∃ out, l.mapM f = some out) ↔ ∀ x ∈ l, (f x).isSome := by
  intro l
  induction l with
  | nil => exact ⟨fun _ x hx => absurd hx (List.not_mem_nil x), fun _ => ⟨[], rfl⟩⟩
  | cons a l ih =>
      rw [List.mapM_cons]
      constructor
      · rintro ⟨out, hout⟩
        cases hfa : f a with
        | none => rw [hfa] at hout; simp at hout
        | some b =>
            cases hl : l.mapM f with
            | none => rw [hfa, hl] at hout; simp at hout
            | some bs =>
                intro x hx
                rcases List.mem_cons.mp hx with rfl | hx2
                · simp [hfa]
                · exact (ih.mp ⟨bs, hl⟩) x hx2
      · intro hall
        obtain ⟨b, hb⟩ := Option.isSome_iff_exists.mp
          (hall a (List.mem_cons_self a l))
        obtain ⟨bs, hbs⟩ := ih.mpr (fun x hx => hall x (List.mem_cons_of_mem a hx))
        exact ⟨b :: bs, by rw [hb, hbs]; rfl⟩

theorem mapM_option_eq_map {α β : Type} (f : α → Option β) (d : β) :
    ∀ (l : List α) (out : List β), l.mapM f = some out →
      out = l.map (fun x => (f x).getD d) := by
  intro l
  induction l with
  | nil =>
      intro out h
      injection h with h2
      rw [← h2]
      rfl
  | cons a l ih =>
      intro out h
      rw [List.mapM_cons] at h
      cases hfa : f a with
      | none => rw [hfa] at h; simp at h
      | some b =>
          cases hl : l.mapM f with
          | none => rw [hfa, hl] at h; simp at h
          | some bs =>
              rw [hfa, hl] at h
              simp only [Option.bind_eq_bind, Option.some_bind] at h
              obtain rfl : b :: bs = out := by
                simpa using h
              simp [hfa, ih bs hl]

theorem mapM_except_ok_iff {α β : Type} (f : α → Except String β) :
    ∀ l : List α, (∃ out, l.mapM f = .ok out) ↔ ∀ x ∈ l, ∃ y, f x = .ok y := by
  intro l
  induction l with
  | nil => exact ⟨fun _ x hx => absurd hx (List.not_mem_nil x), fun _ => ⟨[], rfl⟩⟩
  | cons a l ih =>
      rw [List.mapM_cons]
      constructor
      · rintro ⟨out, hout⟩
        cases hfa : f a with
        | error e => rw [hfa] at hout; simp [Bind.bind, Except.bind] at hout
        | ok b =>
            cases hl : l.mapM f with
            | error e =>
                rw [hfa, hl] at hout
                simp [Bind.bind, Except.bind] at hout
            | ok bs =>
                intro x hx
                rcases List.mem_cons.mp hx with rfl | hx2
                · exact ⟨b, hfa⟩
                · exact (ih.mp ⟨bs, hl⟩) x hx2
      · intro hall
        obtain ⟨b, hb⟩ := hall a (List.mem_cons_self a l)
        obtain ⟨bs, hbs⟩ := ih.mpr (fun x hx => hall x (List.mem_cons_of_mem a hx))
        refine ⟨b :: bs, ?_⟩
        rw [hb, hbs]
        rfl

end Frontend

namespace Frontend

theorem mapM_except_eq_map {α β : Type} (f : α → Except String β) (g : α → β)
    (hg : ∀ x y, f x = .ok y → y = g x) :
    ∀ (l : List α) (out : List β), l.mapM f = .ok out → out = l.map g := by
  intro l
  induction l with
  | nil =>
      intro out h
      injection h with h2
      rw [← h2]
      rfl
  | cons a l ih =>
      intro out h
      rw [List.mapM_cons] at h
      cases hfa : f a with
      | error e => rw [hfa] at h; simp [Bind.bind, Except.bind] at h
      | ok b =>
          cases hl : l.mapM f with
          | error e => rw [hfa, hl] at h; simp [Bind.bind, Except.bind] at h
          | ok bs =>
              rw [hfa, hl] at h
              obtain rfl : b :: bs = out := by
                have : (Except.ok (ε := String) (b :: bs)) = Except.ok out := h
                injection this
              simp [hg a b hfa, ih bs hl]

theorem cleanVector_ok_iff (v : PyVal) :
    (∃ out, cleanVector v = .ok out) ↔
    ∃ l, v = PyVal.list l ∧ l.length = 91 ∧ ∀ x ∈ l, (coerceFloat x).isSome := by
  cases v with
  | list l =>
      constructor
      · rintro ⟨out, hout⟩
        simp only [cleanVector] at hout
        by_cases hlen : l.length = EXPECTED_VECTOR_LENGTH
        · rw [if_pos hlen] at hout
          cases hm : l.mapM coerceFloat with
          | none => rw [hm] at hout; simp at hout
          | some o2 =>
              exact ⟨l, rfl, hlen,
                (mapM_option_isSome_iff coerceFloat l).mp ⟨o2, hm⟩⟩
        · rw [if_neg hlen] at hout; simp at hout
      · rintro ⟨l2, hl2, hlen, hall⟩
        have he : l = l2 := by injection hl2
        subst he
        obtain ⟨o, ho⟩ := (mapM_option_isSome_iff coerceFloat l).mpr hall
        refine ⟨o, ?_⟩
        have hlen2 : l.length = EXPECTED_VECTOR_LENGTH := hlen
        simp only [cleanVector]
        rw [if_pos hlen2, ho]
  | none => simp [cleanVector]
  | bool b => simp [cleanVector]
  | num q => simp [cleanVector]
  | str s => simp [cleanVector]
  | obj kvs => simp [cleanVector]

theorem cleanVector_eq (l : List PyVal) (out : List ℚ)
    (h : cleanVector (PyVal.list l) = .ok out) :
    out = l.map (fun x => (coerceFloat x).getD 0) := by
  simp only [cleanVector] at h
  by_cases hlen : l.length = EXPECTED_VECTOR_LENGTH
  · rw [if_pos hlen] at h
    cases hm : l.mapM coerceFloat with
    | none => rw [hm] at h; simp at h
    | some o =>
        rw [hm] at h
        obtain rfl : o = out := by injection h
        exact mapM_option_eq_map coerceFloat 0 l o hm
  · rw [if_neg hlen] at h; simp at h

end Frontend

namespace Frontend

/-- C6 (counterexample): the claim requires every element of a vector to be
a numeric value, but `validate_payload` accepts the JSON boolean `true`
(Python `float(True)` is `1.0`): this 91-length vector whose first element
is `true` — which is not a JSON number — is accepted and cleaned to
`1.0` followed by ninety `0.0`. -/
theorem C6_counterexample_bool_accepted :
    validate_payload (PyVal.obj [("features",
        PyVal.list [PyVal.list (PyVal.bool true :: List.replicate 90 (PyVal.num 0))])]) =
      .ok [(1 : ℚ) :: List.replicate 90 (0 : ℚ)] ∧
    PyVal.bool true ∈ PyVal.bool true :: List.replicate 90 (PyVal.num 0) ∧
    (∀ q : ℚ, PyVal.bool true ≠ PyVal.num q) :=
  ⟨rfl, List.mem_cons_self _ _, fun q h => by cases h⟩

/-- C6 (amended): `validate_payload` returns a cleaned payload iff its
(parsed) input is a JSON object whose `features` entry is a non-empty list
in which every element is a list of exactly 91 values accepted by Python's
`float()` — numbers, booleans, or numeric strings; in that case every
value is coerced to float, and in every other case it raises. -/
theorem C6_validate_payload_iff (data : PyVal) :
    ((∃ out, validate_payload data = .ok out) ↔
      ∃ kvs, data = PyVal.obj kvs ∧
        ∃ fs, (kvs.lookup "features").getD PyVal.none = PyVal.list fs ∧
          fs ≠ [] ∧
          ∀ v ∈ fs, ∃ l, v = PyVal.list l ∧ l.length = 91 ∧
            ∀ x ∈ l, (coerceFloat x).isSome) ∧
    (∀ kvs fs out, data = PyVal.obj kvs →
      (kvs.lookup "features").getD PyVal.none = PyVal.list fs →
      validate_payload data = .ok out → out = coercedVectors fs) := by
  have hvalue : ∀ kvs fs out, data = PyVal.obj kvs →
      (kvs.lookup "features").getD PyVal.none = PyVal.list fs →
      validate_payload data = .ok out → out = coercedVectors fs := by
    intro kvs fs out hdata hfs hok
    subst hdata
    simp only [validate_payload, hfs] at hok
    cases hemp : fs.isEmpty with
    | true => rw [if_pos hemp] at hok; simp at hok
    | false =>
        rw [if_neg (by rw [hemp]; exact Bool.false_ne_true)] at hok
        apply mapM_except_eq_map cleanVector
          (fun v => match v with
            | PyVal.list l => l.map (fun x => (coerceFloat x).getD 0)
            | _ => []) ?hg fs out hok
        intro x y hxy
        obtain ⟨l, rfl, _, _⟩ := (cleanVector_ok_iff x).mp ⟨y, hxy⟩
        exact cleanVector_eq l y hxy
  refine ⟨?_, hvalue⟩
  cases data with
  | obj kvs =>
      cases hf : (kvs.lookup "features").getD PyVal.none with
      | list fs =>
          cases hemp : fs.isEmpty with
          | true =>
              constructor
              · rintro ⟨out, hout⟩
                simp only [validate_payload, hf, if_pos hemp] at hout
                exact Except.noConfusion hout
              · rintro ⟨kvs2, hk, fs2, hf2, hne, _⟩
                have he : kvs = kvs2 := by injection hk
                subst he
                rw [hf] at hf2
                have he2 : fs = fs2 := by injection hf2
                subst he2
                exact absurd (List.isEmpty_iff.mp hemp) hne
          | false =>
              have hval : validate_payload (PyVal.obj kvs) = fs.mapM cleanVector := by
                simp only [validate_payload, hf]
                rw [if_neg (by rw [hemp]; exact Bool.false_ne_true)]
              constructor
              · rintro ⟨out, hout⟩
                rw [hval] at hout
                refine ⟨kvs, rfl, fs, hf, fun hn => by simp [hn] at hemp, ?_⟩
                intro v hv
                obtain ⟨y, hy⟩ := (mapM_except_ok_iff cleanVector fs).mp
                  ⟨out, hout⟩ v hv
                exact (cleanVector_ok_iff v).mp ⟨y, hy⟩
              · rintro ⟨kvs2, hk, fs2, hf2, hne, hall⟩
                have he : kvs = kvs2 := by injection hk
                subst he
                rw [hf] at hf2
                have he2 : fs = fs2 := by injection hf2
                subst he2
                obtain ⟨out, hout⟩ := (mapM_except_ok_iff cleanVector fs).mpr
                  (fun v hv => (cleanVector_ok_iff v).mpr (hall v hv))
                exact ⟨out, by rw [hval]; exact hout⟩
      | none =>
          constructor
          · rintro ⟨out, hout⟩
            simp only [validate_payload, hf] at hout
            exact Except.noConfusion hout
          · rintro ⟨kvs2, hk, fs2, hf2, _, _⟩
            have he : kvs = kvs2 := by injection hk
            subst he
            rw [hf] at hf2
            cases hf2
      | bool b =>
          constructor
          · rintro ⟨out, hout⟩
            simp only [validate_payload, hf] at hout
            exact Except.noConfusion hout
          · rintro ⟨kvs2, hk, fs2, hf2, _, _⟩
            have he : kvs = kvs2 := by injection hk
            subst he
            rw [hf] at hf2
            cases hf2
      | num q =>
          constructor
          · rintro ⟨out, hout⟩
            simp only [validate_payload, hf] at hout
            exact Except.noConfusion hout
          · rintro ⟨kvs2, hk, fs2, hf2, _, _⟩
            have he : kvs = kvs2 := by injection hk
            subst he
            rw [hf] at hf2
            cases hf2
      | str s =>
          constructor
          · rintro ⟨out, hout⟩
            simp only [validate_payload, hf] at hout
            exact Except.noConfusion hout
          · rintro ⟨kvs2, hk, fs2, hf2, _, _⟩
            have he : kvs = kvs2 := by injection hk
            subst he
            rw [hf] at hf2
            cases hf2
      | obj kvs3 =>
          constructor
          · rintro ⟨out, hout⟩
            simp only [validate_payload, hf] at hout
            exact Except.noConfusion hout
          · rintro ⟨kvs2, hk, fs2, hf2, _, _⟩
            have he : kvs = kvs2 := by injection hk
            subst he
            rw [hf] at hf2
            cases hf2
  | none =>
      exact ⟨fun h => absurd h.choose_spec (by simp [validate_payload]),
        fun ⟨kvs2, hk, _⟩ => by cases hk⟩
  | bool b =>
      exact ⟨fun h => absurd h.choose_spec (by simp [validate_payload]),
        fun ⟨kvs2, hk, _⟩ => by cases hk⟩
  | num q =>
      exact ⟨fun h => absurd h.choose_spec (by simp [validate_payload]),
        fun ⟨kvs2, hk, _⟩ => by cases hk⟩
  | str s =>
      exact ⟨fun h => absurd h.choose_spec (by simp [validate_payload]),
        fun ⟨kvs2, hk, _⟩ => by cases hk⟩
  | list l =>
      exact ⟨fun h => absurd h.choose_spec (by simp [validate_payload]),
        fun ⟨kvs2, hk, _⟩ => by cases hk⟩

end Frontend

namespace Frontend

theorem C6_amended_witness :
    (∃ out, validate_payload (PyVal.obj [("features",
        PyVal.list [PyVal.list (List.replicate 91 (PyVal.num 0))])]) = .ok out) ∧
    (∀ out, validate_payload (PyVal.obj [("features",
        PyVal.list [PyVal.list (List.replicate 91 (PyVal.num 0))])]) = .ok out →
      out = coercedVectors [PyVal.list (List.replicate 91 (PyVal.num 0))]) := by
  have h := C6_validate_payload_iff (PyVal.obj [("features",
    PyVal.list [PyVal.list (List.replicate 91 (PyVal.num 0))])])
  constructor
  · apply h.1.mpr
    refine ⟨_, rfl, _, rfl, by simp, ?_⟩
    intro v hv
    rw [List.mem_singleton] at hv
    subst hv
    exact ⟨List.replicate 91 (PyVal.num 0), rfl, by simp, by decide⟩
  · intro out hout
    exact h.2 _ _ out rfl rfl hout

end Frontend

namespace ProcessCVE

/-!
Embedding of `process_cve_data` (`src/project/pdpipeline/process_cve.py`,
lines 14-156).  Each of the seven pandas DataFrames is a list of typed
rows.  Python operations that can raise on malformed input are kept
fallible: `.get` on a non-dict raises `AttributeError`, `for … in` over a
non-iterable raises `TypeError` (a dict iterates its keys, a string its
characters), and `", ".join` needs an iterable of strings.
`cve_entry.get("id")` is evaluated once and reused; it is deterministic,
so this matches the source re-evaluating it per row.
-/

/-- `v.get(k, d)`: `AttributeError` unless `v` is a dict. -/
def pyGetD (v : PyVal) (k : String) (d : PyVal) : Except String PyVal :=
  match v with
  | .obj kvs => .ok ((kvs.lookup k).getD d)
  | _ => .error "AttributeError: .get on a non-dict"

/-- `v.get(k)`: default `None`. -/
def pyGet (v : PyVal) (k : String) : Except String PyVal :=
  pyGetD v k PyVal.none

/-- `for x in v`: lists yield elements, dicts their keys, strings their
characters; anything else raises `TypeError`. -/
def pyIter : PyVal → Except String (List PyVal)
  | .list l => .ok l
  | .obj kvs => .ok (kvs.map (fun kv => PyVal.str kv.1))
  | .str s => .ok (s.data.map (fun c => PyVal.str (String.mk [c])))
  | _ => .error "TypeError: object is not iterable"

/-- `", ".join(v)`: the items must be strings. -/
def pyJoinComma (v : PyVal) : Except String String := do
  let items ← pyIter v
  let strs ← items.mapM (fun x =>
    match x with
    | PyVal.str s => Except.ok s
    | _ => Except.error "TypeError: sequence item: expected str instance")
  .ok (String.intercalate ", " strs)

/-- A row of the `main` DataFrame (process_cve.py lines 19-29). -/
structure MainRow where
  cve_id : PyVal
  source_identifier : PyVal
  published_date : PyVal
  last_modified_date : PyVal
  vuln_status : PyVal

/-- A row of the `descriptions` DataFrame (lines 32-41). -/
structure DescRow where
  cve_id : PyVal
  lang : PyVal
  description : PyVal

/-- A row of the `cvss_v3` DataFrame (lines 44-68). -/
structure CvssV3Row where
  cve_id : PyVal
  source : PyVal
  type : PyVal
  version : PyVal
  vector_string : PyVal
  base_score : PyVal
  base_severity : PyVal
  attack_vector : PyVal
  attack_complexity : PyVal
  privileges_required : PyVal
  user_interaction : PyVal
  scope : PyVal
  confidentiality_impact : PyVal
  integrity_impact : PyVal
  availability_impact : PyVal
  exploitability_score : PyVal
  impact_score : PyVal

/-- A row of the `cvss_v2` DataFrame (lines 71-98). -/
structure CvssV2Row where
  cve_id : PyVal
  source : PyVal
  type : PyVal
  version : PyVal
  vector_string : PyVal
  base_score : PyVal
  base_severity : PyVal
  access_vector : PyVal
  access_complexity : PyVal
  authentication : PyVal
  confidentiality_impact : PyVal
  integrity_impact : PyVal
  availability_impact : PyVal
  exploitability_score : PyVal
  impact_score : PyVal
  ac_insuf_info : PyVal
  obtain_all_privilege : PyVal
  obtain_user_privilege : PyVal
  obtain_other_privilege : PyVal
  user_interaction_required : PyVal

/-- A row of the `weaknesses` DataFrame (lines 101-113). -/
structure WeakRow where
  cve_id : PyVal
  source : PyVal
  type : PyVal
  lang : PyVal
  cwe_id : PyVal

/-- A row of the `affected_products` DataFrame (lines 116-129). -/
structure CpeRow where
  cve_id : PyVal
  vulnerable : PyVal
  criteria : PyVal
  version_end_including : PyVal
  match_criteria_id : PyVal

/-- A row of the `references` DataFrame (lines 132-144). -/
structure RefRow where
  cve_id : PyVal
  url : PyVal
  source : PyVal
  tags : String

/-- The dict of seven DataFrames returned by `process_cve_data`
(lines 145-153). -/
structure CVETables where
  main : List MainRow
  descriptions : List DescRow
  cvss_v3 : List CvssV3Row
  cvss_v2 : List CvssV2Row
  weaknesses : List WeakRow
  affected_products : List CpeRow
  references : List RefRow

end ProcessCVE

namespace ProcessCVE

/-- One `descriptions` row (lines 33-40). -/
def descRow (cid : PyVal) (desc : PyVal) : Except String DescRow := do
  let lang ← pyGet desc "lang"
  let value ← pyGet desc "value"
  .ok ⟨cid, lang, value⟩

/-- One `cvss_v3` row (lines 45-67): `cvss_data = metric.get("cvssData", {})`
then the dict literal's fields in order. -/
def cvssV3Row (cid : PyVal) (metric : PyVal) : Except String CvssV3Row := do
  let cvss_data ← pyGetD metric "cvssData" (PyVal.obj [])
  let source ← pyGet metric "source"
  let type ← pyGet metric "type"
  let version ← pyGet cvss_data "version"
  let vector_string ← pyGet cvss_data "vectorString"
  let base_score ← pyGet cvss_data "baseScore"
  let base_severity ← pyGet cvss_data "baseSeverity"
  let attack_vector ← pyGet cvss_data "attackVector"
  let attack_complexity ← pyGet cvss_data "attackComplexity"
  let privileges_required ← pyGet cvss_data "privilegesRequired"
  let user_interaction ← pyGet cvss_data "userInteraction"
  let scope ← pyGet cvss_data "scope"
  let confidentiality_impact ← pyGet cvss_data "confidentialityImpact"
  let integrity_impact ← pyGet cvss_data "integrityImpact"
  let availability_impact ← pyGet cvss_data "availabilityImpact"
  let exploitability_score ← pyGet metric "exploitabilityScore"
  let impact_score ← pyGet metric "impactScore"
  .ok ⟨cid, source, type, version, vector_string, base_score, base_severity,
    attack_vector, attack_complexity, privileges_required, user_interaction,
    scope, confidentiality_impact, integrity_impact, availability_impact,
    exploitability_score, impact_score⟩

/-- One `cvss_v2` row (lines 72-97). -/
def cvssV2Row (cid : PyVal) (metric : PyVal) : Except String CvssV2Row := do
  let cvss_data ← pyGetD metric "cvssData" (PyVal.obj [])
  let source ← pyGet metric "source"
  let type ← pyGet metric "type"
  let version ← pyGet cvss_data "version"
  let vector_string ← pyGet cvss_data "vectorString"
  let base_score ← pyGet cvss_data "baseScore"
  let base_severity ← pyGet metric "baseSeverity"
  let access_vector ← pyGet cvss_data "accessVector"
  let access_complexity ← pyGet cvss_data "accessComplexity"
  let authentication ← pyGet cvss_data "authentication"
  let confidentiality_impact ← pyGet cvss_data "confidentialityImpact"
  let integrity_impact ← pyGet cvss_data "integrityImpact"
  let availability_impact ← pyGet cvss_data "availabilityImpact"
  let exploitability_score ← pyGet metric "exploitabilityScore"
  let impact_score ← pyGet metric "impactScore"
  let ac_insuf_info ← pyGet metric "acInsufInfo"
  let obtain_all_privilege ← pyGet metric "obtainAllPrivilege"
  let obtain_user_privilege ← pyGet metric "obtainUserPrivilege"
  let obtain_other_privilege ← pyGet metric "obtainOtherPrivilege"
  let user_interaction_required ← pyGet metric "userInteractionRequired"
  .ok ⟨cid, source, type, version, vector_string, base_score, base_severity,
    access_vector, access_complexity, authentication, confidentiality_impact,
    integrity_impact, availability_impact, exploitability_score, impact_score,
    ac_insuf_info, obtain_all_privilege, obtain_user_privilege,
    obtain_other_privilege, user_interaction_required⟩

/-- One `weaknesses` row (lines 104-112), from a weakness and one of its
description entries. -/
def weakRow (cid : PyVal) (w : PyVal) (desc : PyVal) : Except String WeakRow := do
  let source ← pyGet w "source"
  let type ← pyGet w "type"
  let lang ← pyGet desc "lang"
  let cwe ← pyGet desc "value"
  .ok ⟨cid, source, type, lang, cwe⟩

/-- One `affected_products` row (lines 120-128). -/
def cpeRow (cid : PyVal) (cpe_match : PyVal) : Except String CpeRow := do
  let vulnerable ← pyGet cpe_match "vulnerable"
  let criteria ← pyGet cpe_match "criteria"
  let version_end_including ← pyGet cpe_match "versionEndIncluding"
  let match_criteria_id ← pyGet cpe_match "matchCriteriaId"
  .ok ⟨cid, vulnerable, criteria, version_end_including, match_criteria_id⟩

/-- One `references` row (lines 134-143). -/
def refRow (cid : PyVal) (ref : PyVal) : Except String RefRow := do
  let url ← pyGet ref "url"
  let source ← pyGet ref "source"
  let tagsV ← pyGetD ref "tags" (PyVal.list [])
  let tags ← pyJoinComma tagsV
  .ok ⟨cid, url, source, tags⟩

/-- The `descriptions` loop (lines 32-41). -/
def descTable (cid : PyVal) (entry : PyVal) : Except String (List DescRow) := do
  let dv ← pyGetD entry "descriptions" (PyVal.list [])
  let dl ← pyIter dv
  dl.mapM (descRow cid)

/-- The `cvss_v3` loop (lines 44-68). -/
def cvssV3Table (cid : PyVal) (entry : PyVal) : Except String (List CvssV3Row) := do
  let metrics ← pyGetD entry "metrics" (PyVal.obj [])
  let mv ← pyGetD metrics "cvssMetricV31" (PyVal.list [])
  let ml ← pyIter mv
  ml.mapM (cvssV3Row cid)

/-- The `cvss_v2` loop (lines 71-98). -/
def cvssV2Table (cid : PyVal) (entry : PyVal) : Except String (List CvssV2Row) := do
  let metrics ← pyGetD entry "metrics" (PyVal.obj [])
  let mv ← pyGetD metrics "cvssMetricV2" (PyVal.list [])
  let ml ← pyIter mv
  ml.mapM (cvssV2Row cid)

/-- The nested `weaknesses` loops (lines 101-113). -/
def weakTable (cid : PyVal) (entry : PyVal) : Except String (List WeakRow) := do
  let wv ← pyGetD entry "weaknesses" (PyVal.list [])
  let wl ← pyIter wv
  let nested ← wl.mapM (fun w => do
    let dv ← pyGetD w "description" (PyVal.list [])
    let dl ← pyIter dv
    dl.mapM (weakRow cid w))
  .ok nested.flatten

/-- The triply nested `configurations` loops (lines 116-129). -/
def cpeTable (cid : PyVal) (entry : PyVal) : Except String (List CpeRow) := do
  let cv ← pyGetD entry "configurations" (PyVal.list [])
  let cl ← pyIter cv
  let nested ← cl.mapM (fun config => do
    let nv ← pyGetD config "nodes" (PyVal.list [])
    let nl ← pyIter nv
    let inner ← nl.mapM (fun node => do
      let mv ← pyGetD node "cpeMatch" (PyVal.list [])
      let ml ← pyIter mv
      ml.mapM (cpeRow cid))
    .ok inner.flatten)
  .ok nested.flatten

/-- The `references` loop (lines 132-144). -/
def refTable (cid : PyVal) (entry : PyVal) : Except String (List RefRow) := do
  let rv ← pyGetD entry "references" (PyVal.list [])
  let rl ← pyIter rv
  rl.mapM (refRow cid)

/-- `process_cve_data(cve_data)` (lines 14-156): extract
`cve_entry = cve_data.get("cve", {})`, build the one-row `main` DataFrame,
then the six per-aspect DataFrames, and return all seven. -/
def process_cve_data (cve_data : PyVal) : Except String CVETables := do
  let cve_entry ← pyGetD cve_data "cve" (PyVal.obj [])
  let cid ← pyGet cve_entry "id"
  let source_identifier ← pyGet cve_entry "sourceIdentifier"
  let published_date ← pyGet cve_entry "published"
  let last_modified_date ← pyGet cve_entry "lastModified"
  let vuln_status ← pyGet cve_entry "vulnStatus"
  let descriptions ← descTable cid cve_entry
  let cvss_v3 ← cvssV3Table cid cve_entry
  let cvss_v2 ← cvssV2Table cid cve_entry
  let weaknesses ← weakTable cid cve_entry
  let affected_products ← cpeTable cid cve_entry
  let references ← refTable cid cve_entry
  .ok ⟨[⟨cid, source_identifier, published_date, last_modified_date, vuln_status⟩],
    descriptions, cvss_v3, cvss_v2, weaknesses, affected_products, references⟩

/-- The linking key the claim describes: the entry's `'cve'.'id'`. -/
def entryId (cve_data : PyVal) : Except String PyVal := do
  let cve_entry ← pyGetD cve_data "cve" (PyVal.obj [])
  pyGet cve_entry "id"

end ProcessCVE

namespace ProcessCVE

theorem exceptBind_ok {α β : Type} {x : Except String α} {f : α → Except String β}
    {b : β} (h : x >>= f = .ok b) : ∃ a, x = .ok a ∧ f a = .ok b := by
  cases x with
  | ok a => exact ⟨a, rfl, h⟩
  | error e => exact Except.noConfusion h

theorem mapM_except_mem {α β : Type} (f : α → Except String β) (P : β → Prop)
    (hf : ∀ x y, f x = .ok y → P y) :
    ∀ (l : List α) (out : List β), l.mapM f = .ok out → ∀ r ∈ out, P r := by
  intro l
  induction l with
  | nil =>
      intro out h r hr
      injection h with h2
      rw [← h2] at hr
      exact absurd hr (List.not_mem_nil r)
  | cons a l ih =>
      intro out h r hr
      rw [List.mapM_cons] at h
      cases hfa : f a with
      | error e => rw [hfa] at h; exact Except.noConfusion h
      | ok b =>
          cases hl : l.mapM f with
          | error e => rw [hfa, hl] at h; exact Except.noConfusion h
          | ok bs =>
              rw [hfa, hl] at h
              have h2 : (Except.ok (ε := String) (b :: bs)) = Except.ok out := h
              injection h2 with h3
              rw [← h3] at hr
              rcases List.mem_cons.mp hr with rfl | hr2
              · exact hf a r hfa
              · exact ih bs hl r hr2

theorem descRow_cve_id (cid x : PyVal) (r : DescRow)
    (h : descRow cid x = .ok r) : r.cve_id = cid := by
  unfold descRow at h
  obtain ⟨lang, _, h2⟩ := exceptBind_ok h
  obtain ⟨value, _, h4⟩ := exceptBind_ok h2
  injection h4 with h5
  rw [← h5]

theorem cvssV3Row_cve_id (cid x : PyVal) (r : CvssV3Row)
    (h : cvssV3Row cid x = .ok r) : r.cve_id = cid := by
  unfold cvssV3Row at h
  obtain ⟨a1, _, h⟩ := exceptBind_ok h
  obtain ⟨a2, _, h⟩ := exceptBind_ok h
  obtain ⟨a3, _, h⟩ := exceptBind_ok h
  obtain ⟨a4, _, h⟩ := exceptBind_ok h
  obtain ⟨a5, _, h⟩ := exceptBind_ok h
  obtain ⟨a6, _, h⟩ := exceptBind_ok h
  obtain ⟨a7, _, h⟩ := exceptBind_ok h
  obtain ⟨a8, _, h⟩ := exceptBind_ok h
  obtain ⟨a9, _, h⟩ := exceptBind_ok h
  obtain ⟨a10, _, h⟩ := exceptBind_ok h
  obtain ⟨a11, _, h⟩ := exceptBind_ok h
  obtain ⟨a12, _, h⟩ := exceptBind_ok h
  obtain ⟨a13, _, h⟩ := exceptBind_ok h
  obtain ⟨a14, _, h⟩ := exceptBind_ok h
  obtain ⟨a15, _, h⟩ := exceptBind_ok h
  obtain ⟨a16, _, h⟩ := exceptBind_ok h
  obtain ⟨a17, _, h⟩ := exceptBind_ok h
  injection h with h5
  rw [← h5]

theorem cvssV2Row_cve_id (cid x : PyVal) (r : CvssV2Row)
    (h : cvssV2Row cid x = .ok r) : r.cve_id = cid := by
  unfold cvssV2Row at h
  obtain ⟨a1, _, h⟩ := exceptBind_ok h
  obtain ⟨a2, _, h⟩ := exceptBind_ok h
  obtain ⟨a3, _, h⟩ := exceptBind_ok h
  obtain ⟨a4, _, h⟩ := exceptBind_ok h
  obtain ⟨a5, _, h⟩ := exceptBind_ok h
  obtain ⟨a6, _, h⟩ := exceptBind_ok h
  obtain ⟨a7, _, h⟩ := exceptBind_ok h
  obtain ⟨a8, _, h⟩ := exceptBind_ok h
  obtain ⟨a9, _, h⟩ := exceptBind_ok h
  obtain ⟨a10, _, h⟩ := exceptBind_ok h
  obtain ⟨a11, _, h⟩ := exceptBind_ok h
  obtain ⟨a12, _, h⟩ := exceptBind_ok h
  obtain ⟨a13, _, h⟩ := exceptBind_ok h
  obtain ⟨a14, _, h⟩ := exceptBind_ok h
  obtain ⟨a15, _, h⟩ := exceptBind_ok h
  obtain ⟨a16, _, h⟩ := exceptBind_ok h
  obtain ⟨a17, _, h⟩ := exceptBind_ok h
  obtain ⟨a18, _, h⟩ := exceptBind_ok h
  obtain ⟨a19, _, h⟩ := exceptBind_ok h
  obtain ⟨a20, _, h⟩ := exceptBind_ok h
  injection h with h5
  rw [← h5]

theorem weakRow_cve_id (cid w d : PyVal) (r : WeakRow)
    (h : weakRow cid w d = .ok r) : r.cve_id = cid := by
  unfold weakRow at h
  obtain ⟨a1, _, h⟩ := exceptBind_ok h
  obtain ⟨a2, _, h⟩ := exceptBind_ok h
  obtain ⟨a3, _, h⟩ := exceptBind_ok h
  obtain ⟨a4, _, h⟩ := exceptBind_ok h
  injection h with h5
  rw [← h5]

theorem cpeRow_cve_id (cid x : PyVal) (r : CpeRow)
    (h : cpeRow cid x = .ok r) : r.cve_id = cid := by
  unfold cpeRow at h
  obtain ⟨a1, _, h⟩ := exceptBind_ok h
  obtain ⟨a2, _, h⟩ := exceptBind_ok h
  obtain ⟨a3, _, h⟩ := exceptBind_ok h
  obtain ⟨a4, _, h⟩ := exceptBind_ok h
  injection h with h5
  rw [← h5]

theorem refRow_cve_id (cid x : PyVal) (r : RefRow)
    (h : refRow cid x = .ok r) : r.cve_id = cid := by
  unfold refRow at h
  obtain ⟨a1, _, h⟩ := exceptBind_ok h
  obtain ⟨a2, _, h⟩ := exceptBind_ok h
  obtain ⟨a3, _, h⟩ := exceptBind_ok h
  obtain ⟨a4, _, h⟩ := exceptBind_ok h
  injection h with h5
  rw [← h5]

theorem descTable_cve_id (cid entry : PyVal) (rows : List DescRow)
    (h : descTable cid entry = .ok rows) : ∀ r ∈ rows, r.cve_id = cid := by
  unfold descTable at h
  obtain ⟨dv, _, h⟩ := exceptBind_ok h
  obtain ⟨dl, _, h⟩ := exceptBind_ok h
  exact mapM_except_mem (descRow cid) _ (fun x y => descRow_cve_id cid x y) dl rows h

theorem cvssV3Table_cve_id (cid entry : PyVal) (rows : List CvssV3Row)
    (h : cvssV3Table cid entry = .ok rows) : ∀ r ∈ rows, r.cve_id = cid := by
  unfold cvssV3Table at h
  obtain ⟨a1, _, h⟩ := exceptBind_ok h
  obtain ⟨a2, _, h⟩ := exceptBind_ok h
  obtain ⟨ml, _, h⟩ := exceptBind_ok h
  exact mapM_except_mem (cvssV3Row cid) _ (fun x y => cvssV3Row_cve_id cid x y)
    ml rows h

theorem cvssV2Table_cve_id (cid entry : PyVal) (rows : List CvssV2Row)
    (h : cvssV2Table cid entry = .ok rows) : ∀ r ∈ rows, r.cve_id = cid := by
  unfold cvssV2Table at h
  obtain ⟨a1, _, h⟩ := exceptBind_ok h
  obtain ⟨a2, _, h⟩ := exceptBind_ok h
  obtain ⟨ml, _, h⟩ := exceptBind_ok h
  exact mapM_except_mem (cvssV2Row cid) _ (fun x y => cvssV2Row_cve_id cid x y)
    ml rows h

theorem weakTable_cve_id (cid entry : PyVal) (rows : List WeakRow)
    (h : weakTable cid entry = .ok rows) : ∀ r ∈ rows, r.cve_id = cid := by
  unfold weakTable at h
  obtain ⟨wv, _, h⟩ := exceptBind_ok h
  obtain ⟨wl, _, h⟩ := exceptBind_ok h
  obtain ⟨nested, hn, h⟩ := exceptBind_ok h
  injection h with h2
  rw [← h2]
  intro r hr
  obtain ⟨sub, hsub, hrsub⟩ := List.mem_flatten.mp hr
  revert sub
  refine mapM_except_mem _ (fun sub => r ∈ sub → r.cve_id = cid) ?_ wl nested hn
  intro w sub hws hrs
  obtain ⟨dv, _, hws⟩ := exceptBind_ok hws
  obtain ⟨dl, _, hws⟩ := exceptBind_ok hws
  exact mapM_except_mem (weakRow cid w) _ (fun x y => weakRow_cve_id cid w x y)
    dl sub hws r hrs

theorem cpeTable_cve_id (cid entry : PyVal) (rows : List CpeRow)
    (h : cpeTable cid entry = .ok rows) : ∀ r ∈ rows, r.cve_id = cid := by
  unfold cpeTable at h
  obtain ⟨cv, _, h⟩ := exceptBind_ok h
  obtain ⟨cl, _, h⟩ := exceptBind_ok h
  obtain ⟨nested, hn, h⟩ := exceptBind_ok h
  injection h with h2
  rw [← h2]
  intro r hr
  obtain ⟨sub, hsub, hrsub⟩ := List.mem_flatten.mp hr
  revert sub
  refine mapM_except_mem _ (fun sub => r ∈ sub → r.cve_id = cid) ?_ cl nested hn
  intro config sub hws hrs
  obtain ⟨nv, _, hws⟩ := exceptBind_ok hws
  obtain ⟨nl, _, hws⟩ := exceptBind_ok hws
  obtain ⟨inner, hi, hws⟩ := exceptBind_ok hws
  injection hws with h3
  rw [← h3] at hrs
  obtain ⟨sub2, hsub2, hrsub2⟩ := List.mem_flatten.mp hrs
  revert sub2
  refine mapM_except_mem _ (fun sub2 => r ∈ sub2 → r.cve_id = cid) ?_ nl inner hi
  intro node sub2 hns hrs2
  obtain ⟨mv, _, hns⟩ := exceptBind_ok hns
  obtain ⟨ml, _, hns⟩ := exceptBind_ok hns
  exact mapM_except_mem (cpeRow cid) _ (fun x y => cpeRow_cve_id cid x y)
    ml sub2 hns r hrs2

theorem refTable_cve_id (cid entry : PyVal) (rows : List RefRow)
    (h : refTable cid entry = .ok rows) : ∀ r ∈ rows, r.cve_id = cid := by
  unfold refTable at h
  obtain ⟨rv, _, h⟩ := exceptBind_ok h
  obtain ⟨rl, _, h⟩ := exceptBind_ok h
  exact mapM_except_mem (refRow cid) _ (fun x y => refRow_cve_id cid x y) rl rows h

end ProcessCVE

namespace ProcessCVE

/-- C9: flattening preserves the linking key.  Whenever `process_cve_data`
returns its seven flat tables, the `main` table has exactly one row, and
every row of every table carries `cve_id` equal to the entry's
`'cve'.'id'`. -/
theorem C9_cve_id_preserved (cve_data : PyVal) (t : CVETables)
    (h : process_cve_data cve_data = .ok t) :
    t.main.length = 1 ∧
    ∃ cid, entryId cve_data = .ok cid ∧
      (∀ r ∈ t.main, r.cve_id = cid) ∧
      (∀ r ∈ t.descriptions, r.cve_id = cid) ∧
      (∀ r ∈ t.cvss_v3, r.cve_id = cid) ∧
      (∀ r ∈ t.cvss_v2, r.cve_id = cid) ∧
      (∀ r ∈ t.weaknesses, r.cve_id = cid) ∧
      (∀ r ∈ t.affected_products, r.cve_id = cid) ∧
      (∀ r ∈ t.references, r.cve_id = cid) := by
  unfold process_cve_data at h
  obtain ⟨entry, hentry, h⟩ := exceptBind_ok h
  obtain ⟨cid, hcid, h⟩ := exceptBind_ok h
  obtain ⟨si, _, h⟩ := exceptBind_ok h
  obtain ⟨pd, _, h⟩ := exceptBind_ok h
  obtain ⟨lm, _, h⟩ := exceptBind_ok h
  obtain ⟨vs, _, h⟩ := exceptBind_ok h
  obtain ⟨descs, hdescs, h⟩ := exceptBind_ok h
  obtain ⟨v3, hv3, h⟩ := exceptBind_ok h
  obtain ⟨v2, hv2, h⟩ := exceptBind_ok h
  obtain ⟨wk, hwk, h⟩ := exceptBind_ok h
  obtain ⟨cpe, hcpe, h⟩ := exceptBind_ok h
  obtain ⟨refs, hrefs, h⟩ := exceptBind_ok h
  injection h with h2
  rw [← h2]
  refine ⟨rfl, cid, ?_, ?_, ?_, ?_, ?_, ?_, ?_, ?_⟩
  · unfold entryId
    rw [hentry]
    exact hcid
  · intro r hr
    rw [List.mem_singleton] at hr
    rw [hr]
  · exact descTable_cve_id cid entry descs hdescs
  · exact cvssV3Table_cve_id cid entry v3 hv3
  · exact cvssV2Table_cve_id cid entry v2 hv2
  · exact weakTable_cve_id cid entry wk hwk
  · exact cpeTable_cve_id cid entry cpe hcpe
  · exact refTable_cve_id cid entry refs hrefs

theorem C9_witness :
    (process_cve_data (PyVal.obj [("cve", PyVal.obj
        [("id", PyVal.str "CVE-2024-0001"),
         ("descriptions", PyVal.list [PyVal.obj
           [("lang", PyVal.str "en"), ("value", PyVal.str "d")]])])]) =
      .ok ⟨[⟨PyVal.str "CVE-2024-0001", PyVal.none, PyVal.none, PyVal.none,
              PyVal.none⟩],
           [⟨PyVal.str "CVE-2024-0001", PyVal.str "en", PyVal.str "d"⟩],
           [], [], [], [], []⟩) ∧
    ((⟨[⟨PyVal.str "CVE-2024-0001", PyVal.none, PyVal.none, PyVal.none,
          PyVal.none⟩],
        [⟨PyVal.str "CVE-2024-0001", PyVal.str "en", PyVal.str "d"⟩],
        [], [], [], [], []⟩ : CVETables).main.length = 1 ∧
      ∃ cid, entryId (PyVal.obj [("cve", PyVal.obj
          [("id", PyVal.str "CVE-2024-0001"),
           ("descriptions", PyVal.list [PyVal.obj
             [("lang", PyVal.str "en"), ("value", PyVal.str "d")]])])]) =
          .ok cid ∧
        (∀ r ∈ (⟨[⟨PyVal.str "CVE-2024-0001", PyVal.none, PyVal.none,
            PyVal.none, PyVal.none⟩],
          [⟨PyVal.str "CVE-2024-0001", PyVal.str "en", PyVal.str "d"⟩],
          [], [], [], [], []⟩ : CVETables).main, r.cve_id = cid) ∧
        (∀ r ∈ (⟨[⟨PyVal.str "CVE-2024-0001", PyVal.none, PyVal.none,
            PyVal.none, PyVal.none⟩],
          [⟨PyVal.str "CVE-2024-0001", PyVal.str "en", PyVal.str "d"⟩],
          [], [], [], [], []⟩ : CVETables).descriptions, r.cve_id = cid) ∧
        (∀ r ∈ (⟨[⟨PyVal.str "CVE-2024-0001", PyVal.none, PyVal.none,
            PyVal.none, PyVal.none⟩],
          [⟨PyVal.str "CVE-2024-0001", PyVal.str "en", PyVal.str "d"⟩],
          [], [], [], [], []⟩ : CVETables).cvss_v3, r.cve_id = cid) ∧
        (∀ r ∈ (⟨[⟨PyVal.str "CVE-2024-0001", PyVal.none, PyVal.none,
            PyVal.none, PyVal.none⟩],
          [⟨PyVal.str "CVE-2024-0001", PyVal.str "en", PyVal.str "d"⟩],
          [], [], [], [], []⟩ : CVETables).cvss_v2, r.cve_id = cid) ∧
        (∀ r ∈ (⟨[⟨PyVal.str "CVE-2024-0001", PyVal.none, PyVal.none,
            PyVal.none, PyVal.none⟩],
          [⟨PyVal.str "CVE-2024-0001", PyVal.str "en", PyVal.str "d"⟩],
          [], [], [], [], []⟩ : CVETables).weaknesses, r.cve_id = cid) ∧
        (∀ r ∈ (⟨[⟨PyVal.str "CVE-2024-0001", PyVal.none, PyVal.none,
            PyVal.none, PyVal.none⟩],
          [⟨PyVal.str "CVE-2024-0001", PyVal.str "en", PyVal.str "d"⟩],
          [], [], [], [], []⟩ : CVETables).affected_products, r.cve_id = cid) ∧
        (∀ r ∈ (⟨[⟨PyVal.str "CVE-2024-0001", PyVal.none, PyVal.none,
            PyVal.none, PyVal.none⟩],
          [⟨PyVal.str "CVE-2024-0001", PyVal.str "en", PyVal.str "d"⟩],
          [], [], [], [], []⟩ : CVETables).references, r.cve_id = cid)) := by
  have h : process_cve_data (PyVal.obj [("cve", PyVal.obj
      [("id", PyVal.str "CVE-2024-0001"),
       ("descriptions", PyVal.list [PyVal.obj
         [("lang", PyVal.str "en"), ("value", PyVal.str "d")]])])]) =
      .ok ⟨[⟨PyVal.str "CVE-2024-0001", PyVal.none, PyVal.none, PyVal.none,
              PyVal.none⟩],
           [⟨PyVal.str "CVE-2024-0001", PyVal.str "en", PyVal.str "d"⟩],
           [], [], [], [], []⟩ := rfl
  exact ⟨h, C9_cve_id_preserved _ _ h⟩

end ProcessCVE
